import Mathlib

/-!
Shallow embedding of the maliG31 Neural ODE solver (version1) and proofs of
its specified properties.

Modelling conventions:
* C++ `double` and `float` values are modelled by exact rationals `ℚ`; the
  `double -> float -> double` conversion chain of the device path is an exact
  identity in this model (`f64tof32` / `f32tof64` below).
* `static_cast<int>` on a floating value truncates toward zero (`cppTrunc`).
* `std::map` / `std::unordered_map` are association lists with
  insert-or-overwrite (`assocPut`) and lookup (`assocGet`).
* Functions that throw in C++ return `Option`; a caught exception is a `none`
  consumed by the caller, an escaping exception is reported explicitly.
* OpenGL / EGL calls are modelled by an explicit state (`GLState`,
  `GPUContextManager`) plus an environment of call outcomes; buffer readback
  is modelled as returning the device-resident state.
-/

/-- C++ `static_cast<int>` applied to a floating value: truncation toward zero. -/
def cppTrunc (q : ℚ) : ℤ := if 0 ≤ q then ⌊q⌋ else ⌈q⌉

/-- Exact-model widening `float -> double` (`static_cast<double>`): identity on `ℚ`. -/
def f32tof64 (x : ℚ) : ℚ := x

/-- Exact-model narrowing `double -> float` (`static_cast<float>`): identity on `ℚ`. -/
def f64tof32 (x : ℚ) : ℚ := x

/-- `std::map` / `std::unordered_map` subscript-assignment: insert or overwrite. -/
def assocPut {α : Type} (m : List (String × α)) (k : String) (v : α) :
    List (String × α) :=
  if m.any (fun p => p.1 == k) then
    m.map (fun p => if p.1 == k then (k, v) else p)
  else
    m ++ [(k, v)]

/-- `find` on a `std::map` / `std::unordered_map`. -/
def assocGet {α : Type} (m : List (String × α)) (k : String) : Option α :=
  (m.find? (fun p => p.1 == k)).map (fun p => p.2)

/-! ## Data model (include/solver_base.h) -/

/-- `ODESystem::GPUInfo` (solver_base.h lines 18-23). -/
structure GPUInfo where
  glsl_rhs_code : String
  gpu_uniforms : List ℚ
  builtin_rhs_name : String
  force_cpu_fallback : Bool

/-- `ODESystem` (solver_base.h lines 8-31); the analytical-solution callable is
omitted (never read by the components under verification). -/
structure ODESystem where
  name : String
  dimension : ℤ
  rhs : ℚ → List ℚ → List ℚ
  initial_conditions : List ℚ
  t_start : ℚ
  t_end : ℚ
  parameters : List (String × ℚ)
  gpu_info : Option GPUInfo

/-- `ODESystem::has_gpu_support`. -/
def ODESystem.has_gpu_support (s : ODESystem) : Bool := s.gpu_info.isSome

/-- `ODESystem::use_builtin_rhs`. -/
def ODESystem.use_builtin_rhs (s : ODESystem) : Bool :=
  match s.gpu_info with
  | some g => g.builtin_rhs_name != ""
  | none => false

/-- Access to `gpu_info->builtin_rhs_name` (meaningful only when DeviceInfo is present). -/
def ODESystem.builtinName (s : ODESystem) : String :=
  match s.gpu_info with
  | some g => g.builtin_rhs_name
  | none => ""

/-- Access to `gpu_info->glsl_rhs_code`. -/
def ODESystem.customCode (s : ODESystem) : String :=
  match s.gpu_info with
  | some g => g.glsl_rhs_code
  | none => ""

/-- Access to `gpu_info->gpu_uniforms`. -/
def ODESystem.gpuUniforms (s : ODESystem) : List ℚ :=
  match s.gpu_info with
  | some g => g.gpu_uniforms
  | none => []

/-! ## RHS registry (src/gpu_utils/builtin_rhs_registry.cpp) -/

/-- `RHSDefinition` (builtin_rhs_registry.h). -/
structure RHSDefinition where
  glsl_code : String
  uniform_names : List String
  problem_type_id : ℤ
  description : String

/-- `BuiltinRHSRegistry::register_rhs`: `registry_[name] = definition`. -/
def BuiltinRHSRegistry.register_rhs (reg : List (String × RHSDefinition))
    (name : String) (definition : RHSDefinition) : List (String × RHSDefinition) :=
  assocPut reg name definition

/-- The `exponential` builtin (builtin_rhs_registry.cpp lines 40-49). -/
def exponentialRHS : RHSDefinition :=
  { glsl_code := "\nfloat evaluate_rhs(uint eq_idx, float y_val, float t) \x7b\n    return -lambda * y_val;\n\x7d\n"
    uniform_names := ["lambda"]
    problem_type_id := 0
    description := "Exponential decay: dy/dt = -lambda * y" }

/-- The `vanderpol` builtin (builtin_rhs_registry.cpp lines 52-70). -/
def vanderpolRHS : RHSDefinition :=
  { glsl_code := "\nfloat evaluate_rhs(uint eq_idx, float y_val, float t) \x7b\n    if (eq_idx % 2u == 0u) \x7b\n        // Position equation: dx/dt = v\n        uint v_idx = eq_idx + 1u;\n        return (v_idx < uint(n_equations)) ? current_state[v_idx] : 0.0;\n    \x7d else \x7b\n        // Velocity equation: dv/dt = mu*(1-x^2)*v - x\n        uint x_idx = eq_idx - 1u;\n        float x = current_state[x_idx];\n        return mu * (1.0 - x*x) * y_val - x;\n    \x7d\n\x7d\n"
    uniform_names := ["mu"]
    problem_type_id := 1
    description := "Van der Pol oscillator" }

/-- The `lorenz` builtin (builtin_rhs_registry.cpp lines 73-94). -/
def lorenzRHS : RHSDefinition :=
  { glsl_code := "\nfloat evaluate_rhs(uint eq_idx, float y_val, float t) \x7b\n    uint base_idx = (eq_idx / 3u) * 3u;\n    uint local_idx = eq_idx % 3u;\n    \n    if (base_idx + 2u < uint(n_equations)) \x7b\n        float x = current_state[base_idx + 0u];\n        float y = current_state[base_idx + 1u]; \n        float z = current_state[base_idx + 2u];\n        \n        if (local_idx == 0u) return sigma * (y - x);           // dx/dt\n        if (local_idx == 1u) return x * (rho - z) - y;        // dy/dt\n        if (local_idx == 2u) return x * y - beta * z;         // dz/dt\n    \x7d\n    return 0.0;\n\x7d\n"
    uniform_names := ["sigma", "rho", "beta"]
    problem_type_id := 2
    description := "Lorenz system" }

/-- The `harmonic` builtin (builtin_rhs_registry.cpp lines 97-114). -/
def harmonicRHS : RHSDefinition :=
  { glsl_code := "\nfloat evaluate_rhs(uint eq_idx, float y_val, float t) \x7b\n    if (eq_idx % 2u == 0u) \x7b\n        // Position equation: dx/dt = v\n        uint v_idx = eq_idx + 1u;\n        return (v_idx < uint(n_equations)) ? current_state[v_idx] : 0.0;\n    \x7d else \x7b\n        // Velocity equation: dv/dt = -ω²x  \n        uint x_idx = eq_idx - 1u;\n        return -omega_sq * current_state[x_idx];\n    \x7d\n\x7d\n"
    uniform_names := ["omega_sq"]
    problem_type_id := 3
    description := "Harmonic oscillator" }

/-- `BuiltinRHSRegistry::register_builtin_systems`: the registry contents after
construction of the singleton. -/
def BuiltinRHSRegistry.registry : List (String × RHSDefinition) :=
  BuiltinRHSRegistry.register_rhs
    (BuiltinRHSRegistry.register_rhs
      (BuiltinRHSRegistry.register_rhs
        (BuiltinRHSRegistry.register_rhs [] "exponential" exponentialRHS)
        "vanderpol" vanderpolRHS)
      "lorenz" lorenzRHS)
    "harmonic" harmonicRHS

/-- `BuiltinRHSRegistry::get_rhs`: `none` models the thrown
`std::invalid_argument` for an unknown name. -/
def BuiltinRHSRegistry.get_rhs (name : String) : Option RHSDefinition :=
  assocGet BuiltinRHSRegistry.registry name

/-- `BuiltinRHSRegistry::has_rhs`. -/
def BuiltinRHSRegistry.has_rhs (name : String) : Bool :=
  (assocGet BuiltinRHSRegistry.registry name).isSome

/-! ## CPU steppers (src/steppers) -/

/-- `ExplicitEulerStepper::step` (explicit_euler.cpp): `y[i] += dt * dydt[i]`. -/
def ExplicitEulerStepper.step (system : ODESystem) (t dt : ℚ) (y : List ℚ) : List ℚ :=
  let dydt := system.rhs t y
  (List.range y.length).map (fun i => y.getD i 0 + dt * dydt.getD i 0)

/-- `RK45Stepper::rk45_step` (rk45.cpp lines 9-67), transcribed coefficient for
coefficient; vector indexing `v[i]` over `0 <= i < y.size()` is `List.getD i 0`. -/
def RK45Stepper.rk45_step (system : ODESystem) (t : ℚ) (y : List ℚ) (h : ℚ) : List ℚ :=
  let a21 : ℚ := 1/5
  let a31 : ℚ := 3/40
  let a32 : ℚ := 9/40
  let a41 : ℚ := 44/45
  let a42 : ℚ := -56/15
  let a43 : ℚ := 32/9
  let a51 : ℚ := 19372/6561
  let a52 : ℚ := -25360/2187
  let a53 : ℚ := 64448/6561
  let a54 : ℚ := -212/729
  let a61 : ℚ := 9017/3168
  let a62 : ℚ := -355/33
  let a63 : ℚ := 46732/5247
  let a64 : ℚ := 49/176
  let a65 : ℚ := -5103/18656
  let b1 : ℚ := 35/384
  let b3 : ℚ := 500/1113
  let b4 : ℚ := 125/192
  let b5 : ℚ := -2187/6784
  let b6 : ℚ := 11/84
  let k1 := (system.rhs t y).map (fun k => k * h)
  let y2 := (List.range y.length).map (fun i => y.getD i 0 + a21 * k1.getD i 0)
  let k2 := (system.rhs (t + h/5) y2).map (fun k => k * h)
  let y3 := (List.range y.length).map (fun i => y.getD i 0 + a31 * k1.getD i 0 + a32 * k2.getD i 0)
  let k3 := (system.rhs (t + 3*h/10) y3).map (fun k => k * h)
  let y4 := (List.range y.length).map (fun i => y.getD i 0 + a41 * k1.getD i 0 + a42 * k2.getD i 0 + a43 * k3.getD i 0)
  let k4 := (system.rhs (t + 4*h/5) y4).map (fun k => k * h)
  let y5 := (List.range y.length).map (fun i => y.getD i 0 + a51 * k1.getD i 0 + a52 * k2.getD i 0 + a53 * k3.getD i 0 + a54 * k4.getD i 0)
  let k5 := (system.rhs (t + 8*h/9) y5).map (fun k => k * h)
  let y6 := (List.range y.length).map (fun i => y.getD i 0 + a61 * k1.getD i 0 + a62 * k2.getD i 0 + a63 * k3.getD i 0 + a64 * k4.getD i 0 + a65 * k5.getD i 0)
  let k6 := (system.rhs (t + h) y6).map (fun k => k * h)
  (List.range y.length).map (fun i =>
    y.getD i 0 + b1 * k1.getD i 0 + b3 * k3.getD i 0 + b4 * k4.getD i 0 +
      b5 * k5.getD i 0 + b6 * k6.getD i 0)

/-- `RK45Stepper::step`: `y = rk45_step(system, t, y, dt)`. -/
def RK45Stepper.step (system : ODESystem) (t dt : ℚ) (y : List ℚ) : List ℚ :=
  RK45Stepper.rk45_step system t y dt

/-! ## CPU backend (src/backends/cpu_backend.cpp) -/

/-- The state held in `y` after `i` iterations of the `CPUBackend::solve` loop:
iteration `i` calls the stepper at time `t0 + (i-1)*dt`. -/
def CPUBackend.stateAt (step : ODESystem → ℚ → ℚ → List ℚ → List ℚ)
    (system : ODESystem) (t0 dt : ℚ) (y0 : List ℚ) : ℕ → List ℚ
  | 0 => y0
  | i + 1 => step system (t0 + i * dt) dt (CPUBackend.stateAt step system t0 dt y0 i)

/-- `CPUBackend::solve` (cpu_backend.cpp lines 10-31): push the initial
condition, then run the stepper for `i = 1 .. n_steps-1`. -/
def CPUBackend.solve (step : ODESystem → ℚ → ℚ → List ℚ → List ℚ)
    (system : ODESystem) (t0 tf dt : ℚ) (y0 : List ℚ) : List (List ℚ) :=
  let n_steps : ℤ := cppTrunc ((tf - t0) / dt) + 1
  y0 :: (List.range (n_steps - 1).toNat).map
    (fun i => CPUBackend.stateAt step system t0 dt y0 (i + 1))

/-! ## OpenGL object/state model -/

/-- The device-side GL object state visible to the buffer manager: a fresh-id
counter, the set of live buffer objects, and the sticky error flag read by
`glGetError`. -/
structure GLState where
  nextId : ℕ
  alive : List ℕ
  errorFlag : Bool

/-- `glGenBuffers(1, &id)`: returns a fresh nonzero buffer name. -/
def GLState.genBuffer (gl : GLState) : ℕ × GLState :=
  let id := gl.nextId + 1
  (id, { gl with nextId := id, alive := id :: gl.alive })

/-- `glBufferData`: the environment decides whether this allocation records a
GL error (sticky until read: the flag stays set once set). -/
def GLState.bufferData (gl : GLState) (fails : Bool) : GLState :=
  { gl with errorFlag := gl.errorFlag || fails }

/-- `glDeleteBuffers(1, &id)`. -/
def GLState.deleteBuffer (gl : GLState) (id : ℕ) : GLState :=
  { gl with alive := gl.alive.filter (fun b => b ≠ id) }

/-- `glGetError()`: reports and clears the sticky error flag. -/
def GLState.getError (gl : GLState) : Bool × GLState :=
  (gl.errorFlag, { gl with errorFlag := false })

/-! ## GPU buffer manager (src/gpu_utils/gpu_buffer_manager.cpp) -/

/-- `StandardGPUBuffers` (gpu_buffer_manager.h): the four GL buffer names,
`0` meaning "no buffer". -/
structure StandardGPUBuffers where
  state_buffer : ℕ
  param_buffer : ℕ
  timeseries_buffer : ℕ
  time_control_buffer : ℕ

/-- `GPUBufferManager` member state. -/
structure GPUBufferManager where
  buffers : StandardGPUBuffers
  allocated : Bool
  n_equations : ℤ
  n_timesteps : ℤ

/-- The `GPUBufferManager` constructor. -/
def GPUBufferManager.new : GPUBufferManager :=
  { buffers := ⟨0, 0, 0, 0⟩, allocated := false, n_equations := 0, n_timesteps := 0 }

/-- `if (id != 0) glDeleteBuffers(1, &id);` -/
def GLState.deleteIfNonzero (gl : GLState) (id : ℕ) : GLState :=
  { gl with alive :=
      if id ≠ 0 then gl.alive.filter (fun b => b ≠ id) else gl.alive }

/-- `GPUBufferManager::cleanup_buffers` (gpu_buffer_manager.cpp lines 131-148):
delete every nonzero buffer and zero the handles. -/
def GPUBufferManager.cleanup_buffers (mgr : GPUBufferManager) (gl : GLState) :
    GPUBufferManager × GLState :=
  let gl := gl.deleteIfNonzero mgr.buffers.state_buffer
  let gl := gl.deleteIfNonzero mgr.buffers.param_buffer
  let gl := gl.deleteIfNonzero mgr.buffers.timeseries_buffer
  let gl := gl.deleteIfNonzero mgr.buffers.time_control_buffer
  ({ mgr with buffers := ⟨0, 0, 0, 0⟩ }, gl)

/-- Which `glBufferData` calls of one `allocate_standard_buffers` run record a
GL error (the fault environment). -/
structure AllocEnv where
  stateFails : Bool
  paramFails : Bool
  timeseriesFails : Bool
  timecontrolFails : Bool

/-- The buffers created (via `glGenBuffers`) during one allocate call. -/
inductive BufKind where
  | state
  | params
  | timeseries
  | timeControl
deriving DecidableEq, Repr

/-- Result of `allocate_standard_buffers`: the returned `bool`, the updated
manager and GL state, and the list of buffers created during the call. -/
structure AllocResult where
  ok : Bool
  mgr : GPUBufferManager
  gl : GLState
  created : List BufKind

/-- `GPUBufferManager::allocate_standard_buffers` (gpu_buffer_manager.cpp
lines 16-63): re-allocation first releases held buffers; STATE, PARAMS and
TIME_CONTROL are always created, TIMESERIES only when `n_timesteps > 1`; a GL
error detected at the final `glGetError` check rolls back the call. -/
def GPUBufferManager.allocate_standard_buffers (env : AllocEnv)
    (mgr : GPUBufferManager) (gl : GLState) (n_equations n_timesteps : ℤ)
    (_initial_state : List ℚ) : AllocResult :=
  let (mgr, gl) :=
    if mgr.allocated then GPUBufferManager.cleanup_buffers mgr gl else (mgr, gl)
  let mgr := { mgr with n_equations := n_equations, n_timesteps := n_timesteps }
  -- Buffer 0: state buffer (glBufferData uploads initial_state)
  let (sid, gl) := gl.genBuffer
  let gl := gl.bufferData env.stateFails
  -- Buffer 1: parameter buffer
  let (pid, gl) := gl.genBuffer
  let gl := gl.bufferData env.paramFails
  -- Buffer 2: time series buffer, only if n_timesteps > 1
  let (tsid, gl) :=
    if 1 < n_timesteps then
      let (id, gl) := gl.genBuffer
      (id, gl.bufferData env.timeseriesFails)
    else
      (mgr.buffers.timeseries_buffer, gl)
  -- Buffer 3: time control buffer
  let (tcid, gl) := gl.genBuffer
  let gl := gl.bufferData env.timecontrolFails
  let mgr := { mgr with buffers := ⟨sid, pid, tsid, tcid⟩ }
  let created := [BufKind.state, BufKind.params] ++
    (if 1 < n_timesteps then [BufKind.timeseries] else []) ++ [BufKind.timeControl]
  let (err, gl) := gl.getError
  if err then
    let (mgr, gl) := GPUBufferManager.cleanup_buffers mgr gl
    ⟨false, mgr, gl, created⟩
  else
    ⟨true, { mgr with allocated := true }, gl, created⟩

/-- Mapped device memory visible to readback calls: per-buffer float contents. -/
structure GLMem where
  contents : ℕ → ℕ → ℚ

/-- `GPUBufferManager::read_state_buffer` (gpu_buffer_manager.cpp lines
90-105): empty when not allocated, otherwise a synchronous map/copy/unmap of
`n_equations_` floats. -/
def GPUBufferManager.read_state_buffer (mem : GLMem) (mgr : GPUBufferManager) :
    List ℚ :=
  if mgr.allocated then
    (List.range mgr.n_equations.toNat).map
      (fun i => mem.contents mgr.buffers.state_buffer i)
  else
    []

/-- `GPUBufferManager::read_timeseries_buffer` (gpu_buffer_manager.cpp lines
107-124): empty when not allocated or when the TIMESERIES buffer is absent. -/
def GPUBufferManager.read_timeseries_buffer (mem : GLMem) (mgr : GPUBufferManager)
    (n_equations n_steps : ℤ) : List ℚ :=
  if mgr.allocated ∧ mgr.buffers.timeseries_buffer ≠ 0 then
    (List.range (n_equations * n_steps).toNat).map
      (fun i => mem.contents mgr.buffers.timeseries_buffer i)
  else
    []

/-- `GPUBufferManager::cleanup` (gpu_buffer_manager.cpp lines 126-129). -/
def GPUBufferManager.cleanup (mgr : GPUBufferManager) (gl : GLState) :
    GPUBufferManager × GLState :=
  let (mgr, gl) := GPUBufferManager.cleanup_buffers mgr gl
  ({ mgr with allocated := false }, gl)

/-! ## GPU context manager (src/gpu_utils/gpu_context_manager.cpp) -/

/-- `GPUContextManager` member state (constructor values:
`initialized_=false, dri_fd_=-1, gbm_=nullptr, display_=EGL_NO_DISPLAY,
context_=EGL_NO_CONTEXT`). -/
structure GPUContextManager where
  initialized : Bool
  dri_fd : ℤ
  gbm : Bool
  display : Bool
  context : Bool

/-- The freshly constructed context manager. -/
def GPUContextManager.new : GPUContextManager :=
  { initialized := false, dri_fd := -1, gbm := false, display := false, context := false }

/-- Outcomes of the device/EGL calls performed by `initialize()`. -/
structure DevEnv where
  openOK : Bool
  gbmOK : Bool
  displayOK : Bool
  eglInitOK : Bool
  chooseOK : Bool
  createOK : Bool
  makeCurrentOK : Bool

/-- The device-setup actions `initialize()` can perform, in program order. -/
inductive DevAction where
  | openDRI
  | createGBM
  | getDisplay
  | eglInit
  | chooseConfig
  | createContext
  | makeCurrent
deriving DecidableEq, Repr

/-- `GPUContextManager::initialize` (gpu_context_manager.cpp lines 20-85):
returns immediately when already initialized; otherwise performs the device
setup sequence, stopping at the first failing call. The returned list records
the device setup actions performed by this call. -/
def GPUContextManager.initialize (env : DevEnv) (s : GPUContextManager) :
    Bool × GPUContextManager × List DevAction :=
  if s.initialized then
    (true, s, [])
  else
    let s := { s with dri_fd := if env.openOK then 0 else -1 }
    if s.dri_fd < 0 then (false, s, [DevAction.openDRI]) else
    let s := { s with gbm := env.gbmOK }
    if ¬ s.gbm then (false, s, [DevAction.openDRI, DevAction.createGBM]) else
    let s := { s with display := env.displayOK }
    if ¬ s.display then
      (false, s, [DevAction.openDRI, DevAction.createGBM, DevAction.getDisplay]) else
    if ¬ env.eglInitOK then
      (false, s, [DevAction.openDRI, DevAction.createGBM, DevAction.getDisplay,
        DevAction.eglInit]) else
    if ¬ env.chooseOK then
      (false, s, [DevAction.openDRI, DevAction.createGBM, DevAction.getDisplay,
        DevAction.eglInit, DevAction.chooseConfig]) else
    let s := { s with context := env.createOK }
    if ¬ s.context then
      (false, s, [DevAction.openDRI, DevAction.createGBM, DevAction.getDisplay,
        DevAction.eglInit, DevAction.chooseConfig, DevAction.createContext]) else
    if ¬ env.makeCurrentOK then
      (false, s, [DevAction.openDRI, DevAction.createGBM, DevAction.getDisplay,
        DevAction.eglInit, DevAction.chooseConfig, DevAction.createContext,
        DevAction.makeCurrent])
    else
      (true, { s with initialized := true },
        [DevAction.openDRI, DevAction.createGBM, DevAction.getDisplay,
          DevAction.eglInit, DevAction.chooseConfig, DevAction.createContext,
          DevAction.makeCurrent])

/-- `GPUContextManager::compile_compute_shader` (gpu_context_manager.cpp lines
87-124): `0` when the context is uninitialized; otherwise the compile/link
outcome, supplied by the environment (`0` models a compile or link failure). -/
def GPUContextManager.compile_compute_shader (compileResult : String → ℕ)
    (s : GPUContextManager) (source : String) : ℕ :=
  if ¬ s.initialized then 0 else compileResult source

/-! ## Shader generator (src/gpu_utils/shader_generator.cpp) -/

/-- `std::string::find` + `std::string::replace` of the first occurrence of
`pat`; the string is unchanged when `pat` does not occur. -/
def replaceFirst (s pat repl : String) : String :=
  match s.splitOn pat with
  | [] => s
  | [x] => x
  | x :: rest => x ++ repl ++ String.intercalate pat rest

/-- `ShaderGenerator::generate_uniform_declarations`: one
`"    float <name>;\n"` line per uniform name. -/
def ShaderGenerator.generate_uniform_declarations (names : List String) : String :=
  names.foldl (fun acc n => acc ++ "    float " ++ n ++ ";\n") ""

/-- `ShaderGenerator::substitute_rhs` (shader_generator.cpp lines 41-60). -/
def ShaderGenerator.substitute_rhs (template_code : String) (rhs : RHSDefinition) :
    String :=
  let r1 := replaceFirst template_code "\x7b\x7bUSER_UNIFORMS\x7d\x7d"
    (ShaderGenerator.generate_uniform_declarations rhs.uniform_names)
  replaceFirst r1 "\x7b\x7bRHS_FUNCTION\x7d\x7d" rhs.glsl_code

/-- `ShaderGenerator::generate_euler_shader`: `tmpl` is the text of
`shaders/templates/euler_template.glsl` when that file can be opened (`none`
models the thrown `std::runtime_error`). -/
def ShaderGenerator.generate_euler_shader (tmpl : Option String)
    (rhs : RHSDefinition) : Option String :=
  tmpl.map (fun t => ShaderGenerator.substitute_rhs t rhs)

/-- `ShaderGenerator::generate_euler_shader_builtin` (shader_generator.cpp
lines 22-26): registry lookup (which throws on an unknown name) composed with
`generate_euler_shader`. -/
def ShaderGenerator.generate_euler_shader_builtin (tmpl : Option String)
    (rhs_name : String) : Option String :=
  match BuiltinRHSRegistry.get_rhs rhs_name with
  | none => none
  | some rhs => ShaderGenerator.generate_euler_shader tmpl rhs

/-! ## GPU Euler backend (src/backends/gpu_euler_backend.cpp) -/

/-- `SystemParams` (gpu_buffer_manager.h lines 22-27). -/
structure SystemParams where
  dt : ℚ
  t_current : ℚ
  n_equations : ℤ
  user_uniforms : List ℚ

/-- `TimeControl` (gpu_buffer_manager.h lines 30-33). -/
structure TimeControl where
  current_step : ℤ
  total_steps : ℤ

/-- `std::hash<std::string>`, modelled by Lean's string hash. -/
def stdStringHash (s : String) : ℕ := s.hash.toNat

/-- The cache key chosen by `get_or_compile_shader` (gpu_euler_backend.cpp
lines 18-29): the builtin name, else `"custom_" ++ hash` of the snippet, else
no key (failure). -/
def GPUEulerBackend.cacheKey (system : ODESystem) : Option String :=
  if system.has_gpu_support ∧ system.use_builtin_rhs then
    some system.builtinName
  else if system.has_gpu_support ∧ system.customCode ≠ "" then
    some ("custom_" ++ toString (stdStringHash system.customCode))
  else
    none

/-- Result of `get_or_compile_shader`: the program handle (`0` = failure), the
updated shader cache, and the kernel sources sent to the compiler during the
call (empty on a cache hit). -/
structure ShaderResult where
  program : ℕ
  cache : List (String × ℕ)
  compiled : List String

/-- `GPUEulerBackend::get_or_compile_shader` (gpu_euler_backend.cpp lines
17-59): key selection, cache lookup, generation (builtin only — the custom
GLSL path prints "not yet implemented" and fails), compilation, and storage of
a nonzero handle. -/
def GPUEulerBackend.get_or_compile_shader (tmpl : Option String)
    (compileResult : String → ℕ) (ctx : GPUContextManager)
    (cache : List (String × ℕ)) (system : ODESystem) : ShaderResult :=
  match GPUEulerBackend.cacheKey system with
  | none => ⟨0, cache, []⟩
  | some cache_key =>
    match assocGet cache cache_key with
    | some handle => ⟨handle, cache, []⟩
    | none =>
      if system.use_builtin_rhs then
        match ShaderGenerator.generate_euler_shader_builtin tmpl system.builtinName with
        | none => ⟨0, cache, []⟩   -- exception caught: "Shader generation failed"
        | some shader_source =>
          let program :=
            GPUContextManager.compile_compute_shader compileResult ctx shader_source
          if program ≠ 0 then
            ⟨program, assocPut cache cache_key program, [shader_source]⟩
          else
            ⟨program, cache, [shader_source]⟩
      else
        ⟨0, cache, []⟩   -- "Custom GLSL RHS not yet implemented"

/-- `GPUEulerBackend::setup_uniforms` (gpu_euler_backend.cpp lines 61-87): the
16 uniform slots after the call. `none` models the `std::invalid_argument`
escaping from the registry lookup for an unknown builtin name (the lookup is
not wrapped in a try/catch here). -/
def GPUEulerBackend.setup_uniforms (system : ODESystem) : Option (List ℚ) :=
  if system.has_gpu_support ∧ system.gpuUniforms ≠ [] then
    some ((List.range 16).map (fun i =>
      if i < min system.gpuUniforms.length 16 then system.gpuUniforms.getD i 0 else 0))
  else if system.use_builtin_rhs then
    match BuiltinRHSRegistry.get_rhs system.builtinName with
    | none => none
    | some rhs_def =>
      some ((List.range 16).map (fun i =>
        if i < rhs_def.uniform_names.length then
          match assocGet system.parameters (rhs_def.uniform_names.getD i "") with
          | some v => f64tof32 v
          | none => 0
        else 0))
  else
    some ((List.range 16).map (fun _ => 0))

/-- The environment of device outcomes one `GPUEulerBackend::solve` call runs
against. `progStep` gives the float32 state update computed by one dispatch of
the compiled program identified by its handle (the program semantics are
opaque to the host code under verification). -/
structure GPUSolveEnv where
  dev : DevEnv
  tmpl : Option String
  compileResult : String → ℕ
  alloc : AllocEnv
  progStep : ℕ → SystemParams → ℤ → List ℚ → List ℚ

/-- Modelled from the spec: the per-step behavior of the compute kernel
generated from `shaders/templates/euler_template.glsl`, a file absent from the
repository snapshot (only its loader `ShaderGenerator::load_template` is
present). Per spec §4.5 step 7 together with §8 "Initial condition"
(`trajectory[0]` equals `y0` widened to working representation, exactly) and
§6 ("first element equal to the initial condition"), the dispatch at
`current_step = 0` records the initial STATE unmodified, and later dispatches
apply the compiled program's float32 update; writes are confined to the
`n`-slot STATE buffer, so the state length is preserved. -/
def dispatchKernel (env : GPUSolveEnv) (program : ℕ) (params : SystemParams)
    (tc : TimeControl) (state : List ℚ) : List ℚ :=
  if tc.current_step = 0 then
    state
  else
    (List.range state.length).map
      (fun i => (env.progStep program params tc.current_step state).getD i 0)

/-- The STATE buffer contents after the dispatch for step `s` of the
integration loop of `GPUEulerBackend::solve` (gpu_euler_backend.cpp lines
148-170), starting from the float32 initial state. -/
def GPUEulerBackend.deviceState (env : GPUSolveEnv) (program : ℕ) (t0 dt : ℚ)
    (n_equations n_steps : ℤ) (uniforms : List ℚ) (initial_state : List ℚ) :
    ℕ → List ℚ
  | 0 =>
    dispatchKernel env program
      { dt := dt, t_current := t0, n_equations := n_equations,
        user_uniforms := uniforms }
      { current_step := 0, total_steps := n_steps } initial_state
  | s + 1 =>
    dispatchKernel env program
      { dt := dt, t_current := t0 + (s + 1 : ℕ) * dt, n_equations := n_equations,
        user_uniforms := uniforms }
      { current_step := (s + 1 : ℕ), total_steps := n_steps }
      (GPUEulerBackend.deviceState env program t0 dt n_equations n_steps uniforms
        initial_state s)

/-- The mutable state a `GPUEulerBackend::solve` call touches: the backend's
shader cache, the singleton context, the backend's buffer manager, and the GL
object state. -/
structure BackendWorld where
  cache : List (String × ℕ)
  ctx : GPUContextManager
  bufmgr : GPUBufferManager
  gl : GLState

/-- Result of one `GPUEulerBackend::solve` call. `completed` is the successful
arrival at the final "Integration completed successfully" line; `threw` marks
an exception escaping `solve` (possible only out of `setup_uniforms`);
`solution` is the contents of the output parameter on return. -/
structure GPUSolveRes where
  completed : Bool
  threw : Bool
  solution : List (List ℚ)
  world : BackendWorld

/-- `GPUEulerBackend::solve` (gpu_euler_backend.cpp lines 89-173).
`solutionIn` is the contents of the output parameter at entry; every failure
path returns before the `solution.clear()` at line 145, leaving it untouched.
Per-step readback is modelled as returning the device-resident STATE
(`deviceState`), widened to double. -/
def GPUEulerBackend.solve (env : GPUSolveEnv) (w : BackendWorld)
    (system : ODESystem) (t0 tf dt : ℚ) (y0 : List ℚ)
    (solutionIn : List (List ℚ)) : GPUSolveRes :=
  let ir := GPUContextManager.initialize env.dev w.ctx
  let w := { w with ctx := ir.2.1 }
  if ¬ ir.1 then ⟨false, false, solutionIn, w⟩ else
  if ¬ system.has_gpu_support then ⟨false, false, solutionIn, w⟩ else
  let n_equations : ℤ := y0.length
  let n_steps : ℤ := cppTrunc ((tf - t0) / dt) + 1
  let sres := GPUEulerBackend.get_or_compile_shader env.tmpl env.compileResult
    w.ctx w.cache system
  let w := { w with cache := sres.cache }
  if sres.program = 0 then ⟨false, false, solutionIn, w⟩ else
  let initial_state : List ℚ := y0.map f64tof32
  let ares := GPUBufferManager.allocate_standard_buffers env.alloc w.bufmgr w.gl
    n_equations n_steps initial_state
  let w := { w with bufmgr := ares.mgr, gl := ares.gl }
  if ¬ ares.ok then ⟨false, false, solutionIn, w⟩ else
  match GPUEulerBackend.setup_uniforms system with
  | none => ⟨false, true, solutionIn, w⟩
  | some uniforms =>
    let solution := (List.range n_steps.toNat).map (fun s =>
      (GPUEulerBackend.deviceState env sres.program t0 dt n_equations n_steps
        uniforms initial_state s).map f32tof64)
    ⟨true, false, solution, w⟩

/-! ## Concrete fixtures (used to instantiate the theorems below) -/

/-- A device environment in which every setup call succeeds. -/
def happyDev : DevEnv :=
  { openOK := true, gbmOK := true, displayOK := true, eglInitOK := true,
    chooseOK := true, createOK := true, makeCurrentOK := true }

/-- A device environment whose DRI-device open fails. -/
def failOpenDev : DevEnv :=
  { openOK := false, gbmOK := true, displayOK := true, eglInitOK := true,
    chooseOK := true, createOK := true, makeCurrentOK := true }

/-- An allocation environment with no GL errors. -/
def happyAlloc : AllocEnv :=
  { stateFails := false, paramFails := false, timeseriesFails := false,
    timecontrolFails := false }

/-- An allocation environment in which the STATE `glBufferData` errors. -/
def failStateAlloc : AllocEnv :=
  { stateFails := true, paramFails := false, timeseriesFails := false,
    timecontrolFails := false }

/-- A small stand-in text for `euler_template.glsl` carrying the two
placeholders of the kernel template contract. -/
def sampleTemplate : String :=
  "#version 310 es\n\x7b\x7bUSER_UNIFORMS\x7d\x7d\n\x7b\x7bRHS_FUNCTION\x7d\x7d\nvoid main() \x7b \x7d\n"

/-- A fully successful solve environment: template present, compiler returning
handle 7, no GL faults, and kernel updates that leave the state unchanged. -/
def happyEnv : GPUSolveEnv :=
  { dev := happyDev, tmpl := some sampleTemplate, compileResult := fun _ => 7,
    alloc := happyAlloc, progStep := fun _ _ _ st => st }

/-- `happyEnv` with a failing context initialization. -/
def failCtxEnv : GPUSolveEnv := { happyEnv with dev := failOpenDev }

/-- A fresh backend world: empty shader cache, freshly constructed context
manager and buffer manager, no GL objects. -/
def freshWorld : BackendWorld :=
  { cache := [], ctx := GPUContextManager.new, bufmgr := GPUBufferManager.new,
    gl := { nextId := 0, alive := [], errorFlag := false } }

/-- The exponential-decay problem configured for the builtin device path. -/
def expSystem : ODESystem :=
  { name := "Exponential Decay", dimension := 1,
    rhs := fun _ y => y.map (fun v => -2 * v),
    initial_conditions := [1], t_start := 0, t_end := 1,
    parameters := [("lambda", 2)],
    gpu_info := some (GPUInfo.mk "" [] "exponential" false) }

/-- A problem carrying only a custom GLSL snippet (no builtin name). -/
def customSystem : ODESystem :=
  { name := "Custom", dimension := 1,
    rhs := fun _ y => y,
    initial_conditions := [1], t_start := 0, t_end := 1,
    parameters := [],
    gpu_info := some (GPUInfo.mk "return y_val;" [] "" false) }

/-- A problem whose DeviceInfo supplies an explicit uniform vector. -/
def explicitUniformSystem : ODESystem :=
  { name := "Explicit", dimension := 1,
    rhs := fun _ y => y,
    initial_conditions := [1], t_start := 0, t_end := 1,
    parameters := [("lambda", 2)],
    gpu_info := some (GPUInfo.mk "" [5, 7] "exponential" false) }

/-- A shader-cache state whose keys the backend itself can have stored: every
key names a registered builtin RHS (the custom path never stores a key). -/
def wfShaderCache (cache : List (String × ℕ)) : Prop :=
  ∀ p ∈ cache, (BuiltinRHSRegistry.get_rhs p.1).isSome

/-- Overwrite the force-host-only flag of a system's DeviceInfo (no-op when
DeviceInfo is absent). -/
def ODESystem.setForceFallback (b : Bool) (s : ODESystem) : ODESystem :=
  { s with gpu_info := s.gpu_info.map (fun g => { g with force_cpu_fallback := b }) }

/-! ## Helper lemmas -/

theorem getD_map_mul (l : List ℚ) (c : ℚ) (i : ℕ) :
    (l.map (fun k => k * c)).getD i 0 = l.getD i 0 * c := by
  induction l generalizing i with
  | nil => simp
  | cons a l ih =>
    cases i with
    | zero => simp
    | succ j => simpa using ih j

theorem getD_range_map (n i : ℕ) (f : ℕ → ℚ) (h : i < n) :
    ((List.range n).map f).getD i 0 = f i := by
  rw [List.getD_eq_getElem?_getD, List.getElem?_map, List.getElem?_range h]
  rfl

theorem assocGet_put_self {α : Type} (m : List (String × α)) (k : String) (v : α) :
    assocGet (assocPut m k v) k = some v := by
  induction m with
  | nil => simp [assocPut, assocGet]
  | cons p m ih =>
    by_cases hp : (p.1 == k) = true
    · have hpe : p.1 = k := by simpa using hp
      have hput : assocPut (p :: m) k v =
          (k, v) :: m.map (fun q => if q.1 == k then (k, v) else q) := by
        simp [assocPut, List.any_cons, hp, hpe]
      rw [hput]
      unfold assocGet
      rw [List.find?_cons_of_pos _ (by simp)]
      rfl
    · have hp' : (p.1 == k) = false := by simpa using hp
      have hpe : ¬ p.1 = k := by simpa using hp
      have hput : assocPut (p :: m) k v = p :: assocPut m k v := by
        by_cases hm : m.any (fun q => q.1 == k) = true <;>
          simp [assocPut, List.any_cons, hp', hpe, hm]
      rw [hput]
      unfold assocGet at ih ⊢
      rw [List.find?_cons_of_neg _ (by simp [hp'])]
      exact ih

theorem initialize_result_flag (env : DevEnv) (s : GPUContextManager)
    (h : ( GPUContextManager.initialize env s).1 = true) :
    ( GPUContextManager.initialize env s).2.1.initialized = true := by
  rcases s with ⟨ini, fd, gb, dis, ctx⟩
  rcases env with ⟨o, g, d, e, c, cr, m⟩
  cases ini <;> cases o <;> cases g <;> cases d <;> cases e <;> cases c <;>
    cases cr <;> cases m <;>
    simp_all [ GPUContextManager.initialize]

theorem setForce_has_gpu (b : Bool) (s : ODESystem) :
    (ODESystem.setForceFallback b s).has_gpu_support = s.has_gpu_support := by
  cases h : s.gpu_info <;>
    simp [ODESystem.setForceFallback, ODESystem.has_gpu_support, h]

theorem setForce_use_builtin (b : Bool) (s : ODESystem) :
    (ODESystem.setForceFallback b s).use_builtin_rhs = s.use_builtin_rhs := by
  cases h : s.gpu_info <;>
    simp [ODESystem.setForceFallback, ODESystem.use_builtin_rhs, h]

theorem setForce_builtinName (b : Bool) (s : ODESystem) :
    (ODESystem.setForceFallback b s).builtinName = s.builtinName := by
  cases h : s.gpu_info <;>
    simp [ODESystem.setForceFallback, ODESystem.builtinName, h]

theorem setForce_customCode (b : Bool) (s : ODESystem) :
    (ODESystem.setForceFallback b s).customCode = s.customCode := by
  cases h : s.gpu_info <;>
    simp [ODESystem.setForceFallback, ODESystem.customCode, h]

theorem setForce_gpuUniforms (b : Bool) (s : ODESystem) :
    (ODESystem.setForceFallback b s).gpuUniforms = s.gpuUniforms := by
  cases h : s.gpu_info <;>
    simp [ODESystem.setForceFallback, ODESystem.gpuUniforms, h]

theorem setForce_parameters (b : Bool) (s : ODESystem) :
    (ODESystem.setForceFallback b s).parameters = s.parameters := rfl

theorem setForce_cacheKey (b : Bool) (s : ODESystem) :
    GPUEulerBackend.cacheKey (ODESystem.setForceFallback b s) =
      GPUEulerBackend.cacheKey s := by
  simp only [GPUEulerBackend.cacheKey, setForce_has_gpu, setForce_use_builtin,
    setForce_builtinName, setForce_customCode]

theorem setForce_get_or_compile (tmpl : Option String) (cr : String → ℕ)
    (ctx : GPUContextManager) (cache : List (String × ℕ)) (b : Bool)
    (s : ODESystem) :
    GPUEulerBackend.get_or_compile_shader tmpl cr ctx cache
        (ODESystem.setForceFallback b s) =
      GPUEulerBackend.get_or_compile_shader tmpl cr ctx cache s := by
  simp only [GPUEulerBackend.get_or_compile_shader, setForce_cacheKey,
    setForce_use_builtin, setForce_builtinName]

theorem setForce_setup_uniforms (b : Bool) (s : ODESystem) :
    GPUEulerBackend.setup_uniforms (ODESystem.setForceFallback b s) =
      GPUEulerBackend.setup_uniforms s := by
  simp only [GPUEulerBackend.setup_uniforms, setForce_has_gpu,
    setForce_gpuUniforms, setForce_use_builtin, setForce_builtinName,
    setForce_parameters]

/-! ## Claim theorems -/

/-- C9: after `GPUBufferManager::cleanup()` — and likewise on a manager that
was never allocated — every subsequent `read_state_buffer()` and
`read_timeseries_buffer(n, steps)` call returns an empty vector (the reads are
total functions of the model: no failure or undefined behavior). -/
theorem reads_after_cleanup_empty :
    ∀ (mem : GLMem) (mgr : GPUBufferManager) (gl : GLState)
      (n_equations n_steps : ℤ),
      GPUBufferManager.read_state_buffer mem
          (GPUBufferManager.cleanup mgr gl).1 = [] ∧
      GPUBufferManager.read_timeseries_buffer mem
          (GPUBufferManager.cleanup mgr gl).1 n_equations n_steps = [] ∧
      GPUBufferManager.read_state_buffer mem GPUBufferManager.new = [] ∧
      GPUBufferManager.read_timeseries_buffer mem GPUBufferManager.new
          n_equations n_steps = [] := by
  intro mem mgr gl n_equations n_steps
  refine ⟨?_, ?_, ?_, ?_⟩ <;>
    simp [GPUBufferManager.cleanup, GPUBufferManager.cleanup_buffers,
      GPUBufferManager.read_state_buffer, GPUBufferManager.read_timeseries_buffer,
      GPUBufferManager.new]

/-- C7: `GPUContextManager::initialize` is idempotent: on an
already-initialized context it returns success immediately with no device
setup actions, so after any successful call a second call succeeds, changes
nothing, and performs no device setup. -/
theorem context_initialize_idempotent :
    (∀ (env : DevEnv) (s : GPUContextManager), s.initialized = true →
        GPUContextManager.initialize env s = (true, s, [])) ∧
    (∀ (env : DevEnv) (s : GPUContextManager),
        ( GPUContextManager.initialize env s).1 = true →
        GPUContextManager.initialize env
            ( GPUContextManager.initialize env s).2.1 =
          (true, ( GPUContextManager.initialize env s).2.1, [])) := by
  have base : ∀ (env : DevEnv) (s : GPUContextManager), s.initialized = true →
      GPUContextManager.initialize env s = (true, s, []) := by
    intro env s h
    unfold GPUContextManager.initialize
    simp [h]
  exact ⟨base, fun env s h => base env _ (initialize_result_flag env s h)⟩

/-- C7 witness: with an all-successful device environment and a fresh context,
the first call succeeds and the second returns success with no actions; on an
already-initialized context a call is an immediate success. -/
theorem context_initialize_idempotent_witness :
    ( GPUContextManager.initialize happyDev
        { GPUContextManager.new with initialized := true } =
      (true, { GPUContextManager.new with initialized := true }, [])) ∧
    GPUContextManager.initialize happyDev
        ( GPUContextManager.initialize happyDev GPUContextManager.new).2.1 =
      (true, ( GPUContextManager.initialize happyDev GPUContextManager.new).2.1,
        []) :=
  ⟨context_initialize_idempotent.1 happyDev _ rfl,
    context_initialize_idempotent.2 happyDev GPUContextManager.new (by rfl)⟩

/-- C10: `GPUEulerBackend::solve` never reads `force_cpu_fallback`: its result
(including the trajectory and all state updates) is unchanged by any setting
of the flag — the only DeviceInfo condition checked is presence. -/
theorem solve_ignores_force_cpu_fallback :
    ∀ (b : Bool) (env : GPUSolveEnv) (w : BackendWorld) (system : ODESystem)
      (t0 tf dt : ℚ) (y0 : List ℚ) (solutionIn : List (List ℚ)),
      GPUEulerBackend.solve env w (ODESystem.setForceFallback b system)
          t0 tf dt y0 solutionIn =
        GPUEulerBackend.solve env w system t0 tf dt y0 solutionIn := by
  intro b env w system t0 tf dt y0 solutionIn
  simp only [GPUEulerBackend.solve, setForce_has_gpu, setForce_get_or_compile,
    setForce_setup_uniforms]

theorem solve_completed_characterization
    (env : GPUSolveEnv) (w : BackendWorld) (system : ODESystem)
    (t0 tf dt : ℚ) (y0 : List ℚ) (solutionIn : List (List ℚ))
    (hc : (GPUEulerBackend.solve env w system t0 tf dt y0 solutionIn).completed
      = true) :
    ∃ program uniforms,
      (GPUEulerBackend.solve env w system t0 tf dt y0 solutionIn).solution =
        (List.range (cppTrunc ((tf - t0) / dt) + 1).toNat).map (fun s =>
          (GPUEulerBackend.deviceState env program t0 dt (y0.length : ℤ)
              (cppTrunc ((tf - t0) / dt) + 1) uniforms (y0.map f64tof32) s).map
            f32tof64) := by
  cases hok : ( GPUContextManager.initialize env.dev w.ctx).1 with
  | false => simp [GPUEulerBackend.solve, hok] at hc
  | true =>
    cases hgpu : system.has_gpu_support with
    | false => simp [GPUEulerBackend.solve, hok, hgpu] at hc
    | true =>
      by_cases hprog : (GPUEulerBackend.get_or_compile_shader env.tmpl
          env.compileResult ( GPUContextManager.initialize env.dev w.ctx).2.1
          w.cache system).program = 0
      · simp [GPUEulerBackend.solve, hok, hgpu, hprog] at hc
      · cases halloc : (GPUBufferManager.allocate_standard_buffers env.alloc
            w.bufmgr w.gl (y0.length : ℤ) (cppTrunc ((tf - t0) / dt) + 1)
            (y0.map f64tof32)).ok with
        | false => simp [GPUEulerBackend.solve, hok, hgpu, hprog, halloc] at hc
        | true =>
          cases hsu : GPUEulerBackend.setup_uniforms system with
          | none =>
            simp [GPUEulerBackend.solve, hok, hgpu, hprog, halloc, hsu] at hc
          | some uniforms =>
            refine ⟨(GPUEulerBackend.get_or_compile_shader env.tmpl
              env.compileResult ( GPUContextManager.initialize env.dev w.ctx).2.1
              w.cache system).program, uniforms, ?_⟩
            simp [GPUEulerBackend.solve, hok, hgpu, hprog, halloc, hsu]

/-- C1: on both backends a successful solve records the initial condition as
the trajectory's first element, unmodified before any integration step: the
host path stores `y0` itself (double), and the device path stores `y0` passed
through the
`double -> float32 -> double` conversion chain — which is exact in this
rational-valued model. -/
theorem solve_records_initial_condition :
    (∀ (step : ODESystem → ℚ → ℚ → List ℚ → List ℚ) (system : ODESystem)
        (t0 tf dt : ℚ) (y0 : List ℚ),
        (CPUBackend.solve step system t0 tf dt y0).head? = some y0) ∧
    (∀ (env : GPUSolveEnv) (w : BackendWorld) (system : ODESystem)
        (t0 tf dt : ℚ) (y0 : List ℚ) (solutionIn : List (List ℚ)),
        (GPUEulerBackend.solve env w system t0 tf dt y0 solutionIn).completed
          = true →
        (GPUEulerBackend.solve env w system t0 tf dt y0 solutionIn).solution
          ≠ [] →
        (GPUEulerBackend.solve env w system t0 tf dt y0 solutionIn).solution.head?
          = some ((y0.map f64tof32).map f32tof64)) := by
  constructor
  · intro step system t0 tf dt y0
    rfl
  · intro env w system t0 tf dt y0 solutionIn hc hne
    obtain ⟨program, uniforms, hsol⟩ :=
      solve_completed_characterization env w system t0 tf dt y0 solutionIn hc
    rw [hsol] at hne ⊢
    rcases hk : (cppTrunc ((tf - t0) / dt) + 1).toNat with _ | k
    · simp at hne
      omega
    · rw [List.range_succ_eq_map, List.map_cons, List.head?_cons]
      simp [GPUEulerBackend.deviceState, dispatchKernel]

/-- C1 witness: concrete runs of both backends starting at `y0 = [1]`. -/
theorem solve_records_initial_condition_witness :
    (CPUBackend.solve ExplicitEulerStepper.step expSystem 0 1 (1/2) [1]).head?
        = some [1] ∧
    (GPUEulerBackend.solve happyEnv freshWorld expSystem 0 1 (1/2) [1]
        []).solution.head? = some ((([1] : List ℚ).map f64tof32).map f32tof64) :=
  ⟨solve_records_initial_condition.1 ExplicitEulerStepper.step expSystem 0 1
      (1/2) [1],
    solve_records_initial_condition.2 happyEnv freshWorld expSystem 0 1 (1/2)
      [1] []
      (by
        have hns : cppTrunc ((1 - (0 : ℚ)) / (1 / 2)) + 1 = 3 := by
          norm_num [cppTrunc]
        simp only [GPUEulerBackend.solve, hns]
        decide)
      (by
        have hns : cppTrunc ((1 - (0 : ℚ)) / (1 / 2)) + 1 = 3 := by
          norm_num [cppTrunc]
        simp only [GPUEulerBackend.solve, hns]
        decide)⟩

/-- C4: for all inputs with `0 < dt <= tf - t0`, both `CPUBackend::solve` and
`GPUEulerBackend::solve` compute `n_steps = floor((tf - t0)/dt) + 1` and the
returned trajectory holds exactly `n_steps` state vectors (on the device path,
for every run that completes). Arithmetic is the exact-rational idealization
of the C++ double arithmetic, where `static_cast<int>` of the nonnegative
quotient is its floor. -/
theorem solve_step_count :
    (∀ (step : ODESystem → ℚ → ℚ → List ℚ → List ℚ) (system : ODESystem)
        (t0 tf dt : ℚ) (y0 : List ℚ), 0 < dt → dt ≤ tf - t0 →
        ((CPUBackend.solve step system t0 tf dt y0).length : ℤ) =
          ⌊(tf - t0) / dt⌋ + 1) ∧
    (∀ (env : GPUSolveEnv) (w : BackendWorld) (system : ODESystem)
        (t0 tf dt : ℚ) (y0 : List ℚ) (solutionIn : List (List ℚ)),
        0 < dt → dt ≤ tf - t0 →
        (GPUEulerBackend.solve env w system t0 tf dt y0 solutionIn).completed
          = true →
        (((GPUEulerBackend.solve env w system t0 tf dt y0
            solutionIn).solution.length : ℤ) = ⌊(tf - t0) / dt⌋ + 1)) := by
  have key : ∀ t0 tf dt : ℚ, 0 < dt → dt ≤ tf - t0 →
      cppTrunc ((tf - t0) / dt) = ⌊(tf - t0) / dt⌋ ∧ 1 ≤ ⌊(tf - t0) / dt⌋ := by
    intro t0 tf dt h1 h2
    have hq : (1 : ℚ) ≤ (tf - t0) / dt := (one_le_div h1).mpr h2
    have hfl : (1 : ℤ) ≤ ⌊(tf - t0) / dt⌋ := by
      refine Int.le_floor.mpr ?_
      exact_mod_cast hq
    have hq0 : (0 : ℚ) ≤ (tf - t0) / dt := le_trans zero_le_one hq
    exact ⟨by simp [cppTrunc, hq0], hfl⟩
  constructor
  · intro step system t0 tf dt y0 h1 h2
    obtain ⟨he, hfl⟩ := key t0 tf dt h1 h2
    simp [CPUBackend.solve, he]
    omega
  · intro env w system t0 tf dt y0 solutionIn h1 h2 hc
    obtain ⟨program, uniforms, hsol⟩ :=
      solve_completed_characterization env w system t0 tf dt y0 solutionIn hc
    rw [hsol]
    obtain ⟨he, hfl⟩ := key t0 tf dt h1 h2
    simp [he]
    omega

/-- C4 witness: `t0 = 0`, `tf = 1`, `dt = 1/2` yields exactly
`floor(2) + 1 = 3` recorded states on both backends. -/
theorem solve_step_count_witness :
    ((CPUBackend.solve ExplicitEulerStepper.step expSystem 0 1 (1/2)
        [1]).length : ℤ) = ⌊((1 : ℚ) - 0) / (1/2)⌋ + 1 ∧
    ((GPUEulerBackend.solve happyEnv freshWorld expSystem 0 1 (1/2) [1]
        []).solution.length : ℤ) = ⌊((1 : ℚ) - 0) / (1/2)⌋ + 1 :=
  ⟨solve_step_count.1 ExplicitEulerStepper.step expSystem 0 1 (1/2) [1]
      (by norm_num) (by norm_num),
    solve_step_count.2 happyEnv freshWorld expSystem 0 1 (1/2) [1] []
      (by norm_num) (by norm_num)
      (by
        have hns : cppTrunc ((1 - (0 : ℚ)) / (1 / 2)) + 1 = 3 := by
          norm_num [cppTrunc]
        simp only [GPUEulerBackend.solve, hns]
        decide)⟩

/-- C5: `RK45Stepper::step` replaces `y` by the five-term weighted fifth-order
Dormand-Prince combination
`y[i] + h*(35/384 k1 + 500/1113 k3 + 125/192 k4 - 2187/6784 k5 + 11/84 k6)[i]`
where `k1..k6` are the six stage evaluations of the RHS at the stated tableau
coefficients and stage times `t, t+h/5, t+3h/10, t+4h/5, t+8h/9, t+h`; the
result has the length of `y`, is the only vector produced (no embedded
fourth-order solution), and uses the given step size `h` unchanged. -/
theorem rk45_step_dormand_prince :
    ∀ (system : ODESystem) (t h : ℚ) (y : List ℚ),
      (RK45Stepper.step system t h y).length = y.length ∧
      ∀ i, i < y.length →
        (RK45Stepper.step system t h y).getD i 0 =
          (let f := system.rhs
           let k1 : ℕ → ℚ := fun j => (f t y).getD j 0
           let y2 := (List.range y.length).map
             (fun j => y.getD j 0 + h * (1/5 * k1 j))
           let k2 : ℕ → ℚ := fun j => (f (t + h/5) y2).getD j 0
           let y3 := (List.range y.length).map
             (fun j => y.getD j 0 + h * (3/40 * k1 j + 9/40 * k2 j))
           let k3 : ℕ → ℚ := fun j => (f (t + 3*h/10) y3).getD j 0
           let y4 := (List.range y.length).map
             (fun j => y.getD j 0 + h * (44/45 * k1 j - 56/15 * k2 j +
               32/9 * k3 j))
           let k4 : ℕ → ℚ := fun j => (f (t + 4*h/5) y4).getD j 0
           let y5 := (List.range y.length).map
             (fun j => y.getD j 0 + h * (19372/6561 * k1 j - 25360/2187 * k2 j +
               64448/6561 * k3 j - 212/729 * k4 j))
           let k5 : ℕ → ℚ := fun j => (f (t + 8*h/9) y5).getD j 0
           let y6 := (List.range y.length).map
             (fun j => y.getD j 0 + h * (9017/3168 * k1 j - 355/33 * k2 j +
               46732/5247 * k3 j + 49/176 * k4 j - 5103/18656 * k5 j))
           let k6 : ℕ → ℚ := fun j => (f (t + h) y6).getD j 0
           y.getD i 0 + h * (35/384 * k1 i + 500/1113 * k3 i + 125/192 * k4 i -
             2187/6784 * k5 i + 11/84 * k6 i)) := by
  intro system t h y
  constructor
  · simp [RK45Stepper.step, RK45Stepper.rk45_step]
  · intro i hi
    dsimp only [RK45Stepper.step, RK45Stepper.rk45_step]
    have e2 :
        (List.range y.length).map (fun j => y.getD j 0 +
            1/5 * (((system.rhs t y).map (fun k => k * h)).getD j 0)) =
          (List.range y.length).map (fun j => y.getD j 0 +
            h * (1/5 * ((system.rhs t y).getD j 0))) := by
      refine List.map_congr_left fun j _ => ?_
      rw [getD_map_mul]
      ring
    rw [e2]
    have e3 :
        (List.range y.length).map (fun j => y.getD j 0 +
            3/40 * (((system.rhs t y).map (fun k => k * h)).getD j 0) +
            9/40 * (((system.rhs (t + h/5)
              ((List.range y.length).map (fun j => y.getD j 0 +
                h * (1/5 * ((system.rhs t y).getD j 0))))).map
                (fun k => k * h)).getD j 0)) =
          (List.range y.length).map (fun j => y.getD j 0 +
            h * (3/40 * ((system.rhs t y).getD j 0) +
              9/40 * ((system.rhs (t + h/5)
                ((List.range y.length).map (fun j => y.getD j 0 +
                  h * (1/5 * ((system.rhs t y).getD j 0))))).getD j 0))) := by
      refine List.map_congr_left fun j _ => ?_
      rw [getD_map_mul, getD_map_mul]
      ring
    rw [e3]
    have e4 :
        (List.range y.length).map (fun j => y.getD j 0 +
            44/45 * (((system.rhs t y).map (fun k => k * h)).getD j 0) +
            -56/15 * (((system.rhs (t + h/5)
              ((List.range y.length).map (fun j => y.getD j 0 +
                h * (1/5 * ((system.rhs t y).getD j 0))))).map
                (fun k => k * h)).getD j 0) +
            32/9 * (((system.rhs (t + 3*h/10)
              ((List.range y.length).map (fun j => y.getD j 0 +
                h * (3/40 * ((system.rhs t y).getD j 0) +
                  9/40 * ((system.rhs (t + h/5)
                    ((List.range y.length).map (fun j => y.getD j 0 +
                      h * (1/5 * ((system.rhs t y).getD j 0))))).getD j 0))))).map
                (fun k => k * h)).getD j 0)) =
          (List.range y.length).map (fun j => y.getD j 0 +
            h * (44/45 * ((system.rhs t y).getD j 0) -
              56/15 * ((system.rhs (t + h/5)
                ((List.range y.length).map (fun j => y.getD j 0 +
                  h * (1/5 * ((system.rhs t y).getD j 0))))).getD j 0) +
              32/9 * ((system.rhs (t + 3*h/10)
                ((List.range y.length).map (fun j => y.getD j 0 +
                  h * (3/40 * ((system.rhs t y).getD j 0) +
                    9/40 * ((system.rhs (t + h/5)
                      ((List.range y.length).map (fun j => y.getD j 0 +
                        h * (1/5 * ((system.rhs t y).getD j 0))))).getD
                      j 0))))).getD j 0))) := by
      refine List.map_congr_left fun j _ => ?_
      rw [getD_map_mul, getD_map_mul, getD_map_mul]
      ring
    rw [e4]
    set Y2 := (List.range y.length).map (fun j => y.getD j 0 +
      h * (1/5 * ((system.rhs t y).getD j 0))) with hY2
    set Y3 := (List.range y.length).map (fun j => y.getD j 0 +
      h * (3/40 * ((system.rhs t y).getD j 0) +
        9/40 * ((system.rhs (t + h/5) Y2).getD j 0))) with hY3
    set Y4 := (List.range y.length).map (fun j => y.getD j 0 +
      h * (44/45 * ((system.rhs t y).getD j 0) -
        56/15 * ((system.rhs (t + h/5) Y2).getD j 0) +
        32/9 * ((system.rhs (t + 3*h/10) Y3).getD j 0))) with hY4
    have e5 :
        (List.range y.length).map (fun j => y.getD j 0 +
            19372/6561 * (((system.rhs t y).map (fun k => k * h)).getD j 0) +
            -25360/2187 * (((system.rhs (t + h/5) Y2).map
              (fun k => k * h)).getD j 0) +
            64448/6561 * (((system.rhs (t + 3*h/10) Y3).map
              (fun k => k * h)).getD j 0) +
            -212/729 * (((system.rhs (t + 4*h/5) Y4).map
              (fun k => k * h)).getD j 0)) =
          (List.range y.length).map (fun j => y.getD j 0 +
            h * (19372/6561 * ((system.rhs t y).getD j 0) -
              25360/2187 * ((system.rhs (t + h/5) Y2).getD j 0) +
              64448/6561 * ((system.rhs (t + 3*h/10) Y3).getD j 0) -
              212/729 * ((system.rhs (t + 4*h/5) Y4).getD j 0))) := by
      refine List.map_congr_left fun j _ => ?_
      rw [getD_map_mul, getD_map_mul, getD_map_mul, getD_map_mul]
      ring
    rw [e5]
    set Y5 := (List.range y.length).map (fun j => y.getD j 0 +
      h * (19372/6561 * ((system.rhs t y).getD j 0) -
        25360/2187 * ((system.rhs (t + h/5) Y2).getD j 0) +
        64448/6561 * ((system.rhs (t + 3*h/10) Y3).getD j 0) -
        212/729 * ((system.rhs (t + 4*h/5) Y4).getD j 0))) with hY5
    have e6 :
        (List.range y.length).map (fun j => y.getD j 0 +
            9017/3168 * (((system.rhs t y).map (fun k => k * h)).getD j 0) +
            -355/33 * (((system.rhs (t + h/5) Y2).map
              (fun k => k * h)).getD j 0) +
            46732/5247 * (((system.rhs (t + 3*h/10) Y3).map
              (fun k => k * h)).getD j 0) +
            49/176 * (((system.rhs (t + 4*h/5) Y4).map
              (fun k => k * h)).getD j 0) +
            -5103/18656 * (((system.rhs (t + 8*h/9) Y5).map
              (fun k => k * h)).getD j 0)) =
          (List.range y.length).map (fun j => y.getD j 0 +
            h * (9017/3168 * ((system.rhs t y).getD j 0) -
              355/33 * ((system.rhs (t + h/5) Y2).getD j 0) +
              46732/5247 * ((system.rhs (t + 3*h/10) Y3).getD j 0) +
              49/176 * ((system.rhs (t + 4*h/5) Y4).getD j 0) -
              5103/18656 * ((system.rhs (t + 8*h/9) Y5).getD j 0))) := by
      refine List.map_congr_left fun j _ => ?_
      rw [getD_map_mul, getD_map_mul, getD_map_mul, getD_map_mul, getD_map_mul]
      ring
    rw [e6]
    rw [getD_range_map y.length i _ hi]
    simp only [getD_map_mul]
    ring

/-- C5 witness: the tableau identity instantiated at the exponential system,
`t = 0`, `h = 1`, `y = [1]`, component `i = 0`. -/
theorem rk45_step_dormand_prince_witness :
    (RK45Stepper.step expSystem 0 1 [1]).length = ([1] : List ℚ).length ∧
    (RK45Stepper.step expSystem 0 1 [1]).getD 0 0 =
      (let f := expSystem.rhs
       let k1 : ℕ → ℚ := fun j => (f 0 [1]).getD j 0
       let y2 := (List.range ([1] : List ℚ).length).map
         (fun j => ([1] : List ℚ).getD j 0 + 1 * (1/5 * k1 j))
       let k2 : ℕ → ℚ := fun j => (f (0 + 1/5) y2).getD j 0
       let y3 := (List.range ([1] : List ℚ).length).map
         (fun j => ([1] : List ℚ).getD j 0 + 1 * (3/40 * k1 j + 9/40 * k2 j))
       let k3 : ℕ → ℚ := fun j => (f (0 + 3*1/10) y3).getD j 0
       let y4 := (List.range ([1] : List ℚ).length).map
         (fun j => ([1] : List ℚ).getD j 0 + 1 * (44/45 * k1 j - 56/15 * k2 j +
           32/9 * k3 j))
       let k4 : ℕ → ℚ := fun j => (f (0 + 4*1/5) y4).getD j 0
       let y5 := (List.range ([1] : List ℚ).length).map
         (fun j => ([1] : List ℚ).getD j 0 + 1 * (19372/6561 * k1 j -
           25360/2187 * k2 j + 64448/6561 * k3 j - 212/729 * k4 j))
       let k5 : ℕ → ℚ := fun j => (f (0 + 8*1/9) y5).getD j 0
       let y6 := (List.range ([1] : List ℚ).length).map
         (fun j => ([1] : List ℚ).getD j 0 + 1 * (9017/3168 * k1 j -
           355/33 * k2 j + 46732/5247 * k3 j + 49/176 * k4 j -
           5103/18656 * k5 j))
       let k6 : ℕ → ℚ := fun j => (f (0 + 1) y6).getD j 0
       ([1] : List ℚ).getD 0 0 + 1 * (35/384 * k1 0 + 500/1113 * k3 0 +
         125/192 * k4 0 - 2187/6784 * k5 0 + 11/84 * k6 0)) :=
  ⟨(rk45_step_dormand_prince expSystem 0 1 [1]).1,
    (rk45_step_dormand_prince expSystem 0 1 [1]).2 0 (by decide)⟩

/-- C6: after `setup_uniforms`, with an explicit uniform vector of length `k`
slots `[0, min(k,16))` equal the vector and the remaining slots are zero; with
no explicit vector and a builtin RHS, slot `i` holds the `i`-th uniform name
of the resolved RHSDefinition looked up in `system.parameters`, defaulting to
0 when absent; the explicit vector takes priority unconditionally (the first
branch never consults the registry or the parameter map). -/
theorem setup_uniforms_resolution :
    (∀ (system : ODESystem) (g : GPUInfo), system.gpu_info = some g →
        g.gpu_uniforms ≠ [] →
        ∃ slots, GPUEulerBackend.setup_uniforms system = some slots ∧
          slots.length = 16 ∧
          (∀ i, i < 16 → slots.getD i 0 =
            if i < min g.gpu_uniforms.length 16 then g.gpu_uniforms.getD i 0
            else 0)) ∧
    (∀ (system : ODESystem) (g : GPUInfo) (rhs_def : RHSDefinition),
        system.gpu_info = some g → g.gpu_uniforms = [] →
        g.builtin_rhs_name ≠ "" →
        BuiltinRHSRegistry.get_rhs g.builtin_rhs_name = some rhs_def →
        ∃ slots, GPUEulerBackend.setup_uniforms system = some slots ∧
          slots.length = 16 ∧
          (∀ i, i < 16 → slots.getD i 0 =
            if i < rhs_def.uniform_names.length then
              ((assocGet system.parameters
                (rhs_def.uniform_names.getD i "")).map f64tof32).getD 0
            else 0)) := by
  constructor
  · intro system g hg hne
    refine ⟨(List.range 16).map (fun i =>
      if i < min system.gpuUniforms.length 16 then system.gpuUniforms.getD i 0
      else 0), ?_, ?_, ?_⟩
    · simp [GPUEulerBackend.setup_uniforms, ODESystem.has_gpu_support,
        ODESystem.gpuUniforms, hg, hne]
    · simp
    · intro i hi
      rw [getD_range_map 16 i _ hi]
      simp [ODESystem.gpuUniforms, hg]
  · intro system g rhs_def hg hun hname hreg
    refine ⟨(List.range 16).map (fun i =>
      if i < rhs_def.uniform_names.length then
        match assocGet system.parameters (rhs_def.uniform_names.getD i "") with
        | some v => f64tof32 v
        | none => 0
      else 0), ?_, ?_, ?_⟩
    · simp only [GPUEulerBackend.setup_uniforms, ODESystem.has_gpu_support,
        ODESystem.gpuUniforms, ODESystem.use_builtin_rhs, ODESystem.builtinName,
        hg, hun, hreg]
      simp [hname]
    · simp
    · intro i hi
      rw [getD_range_map 16 i _ hi]
      rcases assocGet system.parameters (rhs_def.uniform_names.getD i "") with
        _ | v <;> simp

/-- C6 witness: the explicit vector `[5, 7]` fills slots 0 and 1 and zeroes
the rest; without it, the `exponential` builtin pulls `lambda = 2` from the
parameter map into slot 0. -/
theorem setup_uniforms_resolution_witness :
    (∃ slots, GPUEulerBackend.setup_uniforms explicitUniformSystem = some slots ∧
      slots.length = 16 ∧
      (∀ i, i < 16 → slots.getD i 0 =
        if i < min (GPUInfo.mk "" [5, 7] "exponential" false).gpu_uniforms.length
            16 then
          (GPUInfo.mk "" [5, 7] "exponential" false).gpu_uniforms.getD i 0
        else 0)) ∧
    (∃ slots, GPUEulerBackend.setup_uniforms expSystem = some slots ∧
      slots.length = 16 ∧
      (∀ i, i < 16 → slots.getD i 0 =
        if i < exponentialRHS.uniform_names.length then
          ((assocGet expSystem.parameters
            (exponentialRHS.uniform_names.getD i "")).map f64tof32).getD 0
        else 0)) :=
  ⟨setup_uniforms_resolution.1 explicitUniformSystem _ rfl (by decide),
    setup_uniforms_resolution.2 expSystem _ exponentialRHS rfl rfl (by decide)
      (by rfl)⟩

/-- C3 counterexample: a custom-snippet system on a cache miss, with a
compiler that would succeed (`fun _ => 7`) and the template present: the
resolution returns handle 0, sends nothing to the compiler, and stores
nothing — the custom path is unimplemented, contradicting the claim that on a
miss the source is generated, compiled and stored "for custom snippets as
well as builtins". -/
theorem custom_snippet_never_compiled :
    GPUEulerBackend.get_or_compile_shader (some sampleTemplate) (fun _ => 7)
        { GPUContextManager.new with initialized := true } [] customSystem =
      ⟨0, [], []⟩ := rfl

/-- C3 (amended): the cache key is the builtin name, else the content hash of
the custom snippet; a hit returns the cached handle with no recompilation and
an unchanged cache (so repeated requests for one builtin yield the identical
handle); a builtin miss generates the source, compiles it, and stores a
nonzero handle; a custom-snippet miss computes the key but generation is
unimplemented: it fails with handle 0, compiling and storing nothing. -/
theorem shader_cache_resolution :
    (∀ system : ODESystem, system.has_gpu_support = true →
        system.use_builtin_rhs = true →
        GPUEulerBackend.cacheKey system = some system.builtinName) ∧
    (∀ system : ODESystem, system.has_gpu_support = true →
        system.use_builtin_rhs = false → system.customCode ≠ "" →
        GPUEulerBackend.cacheKey system =
          some ("custom_" ++ toString (stdStringHash system.customCode))) ∧
    (∀ (tmpl : Option String) (cr : String → ℕ) (ctx : GPUContextManager)
        (cache : List (String × ℕ)) (system : ODESystem) (key : String)
        (handle : ℕ),
        GPUEulerBackend.cacheKey system = some key →
        assocGet cache key = some handle →
        GPUEulerBackend.get_or_compile_shader tmpl cr ctx cache system =
          ⟨handle, cache, []⟩) ∧
    (∀ (tmpl : Option String) (cr : String → ℕ) (ctx : GPUContextManager)
        (cache : List (String × ℕ)) (system : ODESystem) (key : String)
        (src : String),
        GPUEulerBackend.cacheKey system = some key →
        assocGet cache key = none →
        system.use_builtin_rhs = true →
        ShaderGenerator.generate_euler_shader_builtin tmpl system.builtinName =
          some src →
        GPUEulerBackend.get_or_compile_shader tmpl cr ctx cache system =
          (let program := GPUContextManager.compile_compute_shader cr ctx src
           if program ≠ 0 then ⟨program, assocPut cache key program, [src]⟩
           else ⟨program, cache, [src]⟩)) ∧
    (∀ (tmpl : Option String) (cr : String → ℕ) (ctx : GPUContextManager)
        (cache : List (String × ℕ)) (system : ODESystem) (key : String),
        GPUEulerBackend.cacheKey system = some key →
        assocGet cache key = none →
        system.use_builtin_rhs = false →
        GPUEulerBackend.get_or_compile_shader tmpl cr ctx cache system =
          ⟨0, cache, []⟩) ∧
    (∀ (tmpl : Option String) (cr : String → ℕ) (ctx : GPUContextManager)
        (cache : List (String × ℕ)) (system : ODESystem) (r₁ : ShaderResult),
        system.has_gpu_support = true → system.use_builtin_rhs = true →
        GPUEulerBackend.get_or_compile_shader tmpl cr ctx cache system = r₁ →
        r₁.program ≠ 0 →
        GPUEulerBackend.get_or_compile_shader tmpl cr ctx r₁.cache system =
          ⟨r₁.program, r₁.cache, []⟩) := by
  have hbkey : ∀ system : ODESystem, system.has_gpu_support = true →
      system.use_builtin_rhs = true →
      GPUEulerBackend.cacheKey system = some system.builtinName := by
    intro system h1 h2
    simp [GPUEulerBackend.cacheKey, h1, h2]
  have hit : ∀ (tmpl : Option String) (cr : String → ℕ)
      (ctx : GPUContextManager) (cache : List (String × ℕ))
      (system : ODESystem) (key : String) (handle : ℕ),
      GPUEulerBackend.cacheKey system = some key →
      assocGet cache key = some handle →
      GPUEulerBackend.get_or_compile_shader tmpl cr ctx cache system =
        ⟨handle, cache, []⟩ := by
    intro tmpl cr ctx cache system key handle hkey hget
    simp only [GPUEulerBackend.get_or_compile_shader, hkey, hget]
  have missB : ∀ (tmpl : Option String) (cr : String → ℕ)
      (ctx : GPUContextManager) (cache : List (String × ℕ))
      (system : ODESystem) (key : String) (src : String),
      GPUEulerBackend.cacheKey system = some key →
      assocGet cache key = none →
      system.use_builtin_rhs = true →
      ShaderGenerator.generate_euler_shader_builtin tmpl system.builtinName =
        some src →
      GPUEulerBackend.get_or_compile_shader tmpl cr ctx cache system =
        (let program := GPUContextManager.compile_compute_shader cr ctx src
         if program ≠ 0 then ⟨program, assocPut cache key program, [src]⟩
         else ⟨program, cache, [src]⟩) := by
    intro tmpl cr ctx cache system key src hkey hget hb hgen
    simp only [GPUEulerBackend.get_or_compile_shader, hkey, hget, hb, hgen,
      if_true]
  have missC : ∀ (tmpl : Option String) (cr : String → ℕ)
      (ctx : GPUContextManager) (cache : List (String × ℕ))
      (system : ODESystem) (key : String),
      GPUEulerBackend.cacheKey system = some key →
      assocGet cache key = none →
      system.use_builtin_rhs = false →
      GPUEulerBackend.get_or_compile_shader tmpl cr ctx cache system =
        ⟨0, cache, []⟩ := by
    intro tmpl cr ctx cache system key hkey hget hb
    simp only [GPUEulerBackend.get_or_compile_shader, hkey, hget, hb,
      Bool.false_eq_true, if_false]
  refine ⟨hbkey, ?_, hit, missB, missC, ?_⟩
  · intro system h1 h2 h3
    simp [GPUEulerBackend.cacheKey, h1, h2, h3]
  · intro tmpl cr ctx cache system r₁ h1 h2 heq hpr
    have hkey := hbkey system h1 h2
    cases hget : assocGet cache system.builtinName with
    | some handle =>
      have hfirst := hit tmpl cr ctx cache system system.builtinName handle
        hkey hget
      have hr : r₁ = ⟨handle, cache, []⟩ := by rw [← heq, hfirst]
      rw [hr]
      exact hit tmpl cr ctx cache system system.builtinName handle hkey hget
    | none =>
      cases hgen : ShaderGenerator.generate_euler_shader_builtin tmpl
          system.builtinName with
      | none =>
        have h0 : GPUEulerBackend.get_or_compile_shader tmpl cr ctx cache
            system = ⟨0, cache, []⟩ := by
          simp only [GPUEulerBackend.get_or_compile_shader, hkey, hget, h2,
            hgen, if_true]
        rw [heq] at h0
        rw [h0] at hpr
        simp at hpr
      | some src =>
        have hfirst := missB tmpl cr ctx cache system system.builtinName src
          hkey hget h2 hgen
        by_cases hp : GPUContextManager.compile_compute_shader cr ctx src = 0
        · rw [hp] at hfirst
          simp only [ne_eq, not_true_eq_false, if_false] at hfirst
          have hr : r₁ = ⟨0, cache, [src]⟩ := by rw [← heq, hfirst]
          rw [hr] at hpr
          simp at hpr
        · simp only [ne_eq, hp, not_false_iff, if_true] at hfirst
          have hr : r₁ = ⟨GPUContextManager.compile_compute_shader cr ctx src,
            assocPut cache system.builtinName
              (GPUContextManager.compile_compute_shader cr ctx src), [src]⟩ := by
            rw [← heq, hfirst]
          rw [hr]
          exact hit tmpl cr ctx _ system system.builtinName _ hkey
            (assocGet_put_self cache system.builtinName _)

/-- C3 witness: key selection, a cache hit on a pre-populated cache, and the
identical handle returned for a repeated `exponential` request. -/
theorem shader_cache_resolution_witness :
    GPUEulerBackend.cacheKey expSystem = some expSystem.builtinName ∧
    GPUEulerBackend.get_or_compile_shader (some sampleTemplate) (fun _ => 7)
        { GPUContextManager.new with initialized := true }
        [("exponential", 9)] expSystem = ⟨9, [("exponential", 9)], []⟩ ∧
    GPUEulerBackend.get_or_compile_shader (some sampleTemplate) (fun _ => 7)
        { GPUContextManager.new with initialized := true }
        (GPUEulerBackend.get_or_compile_shader (some sampleTemplate)
          (fun _ => 7) { GPUContextManager.new with initialized := true } []
          expSystem).cache expSystem =
      ⟨(GPUEulerBackend.get_or_compile_shader (some sampleTemplate)
          (fun _ => 7) { GPUContextManager.new with initialized := true } []
          expSystem).program,
        (GPUEulerBackend.get_or_compile_shader (some sampleTemplate)
          (fun _ => 7) { GPUContextManager.new with initialized := true } []
          expSystem).cache, []⟩ :=
  ⟨shader_cache_resolution.1 expSystem rfl rfl,
    shader_cache_resolution.2.2.1 (some sampleTemplate) (fun _ => 7)
      { GPUContextManager.new with initialized := true } [("exponential", 9)]
      expSystem "exponential" 9 (by rfl) (by decide),
    shader_cache_resolution.2.2.2.2.2 (some sampleTemplate) (fun _ => 7)
      { GPUContextManager.new with initialized := true } []
      expSystem _ rfl rfl rfl (by decide)⟩

theorem setup_some_of_program_nonzero (tmpl : Option String) (cr : String → ℕ)
    (ctx : GPUContextManager) (cache : List (String × ℕ)) (system : ODESystem)
    (hwf : wfShaderCache cache)
    (hprog : (GPUEulerBackend.get_or_compile_shader tmpl cr ctx cache
      system).program ≠ 0) :
    GPUEulerBackend.setup_uniforms system ≠ none := by
  intro hnone
  by_cases hA : system.has_gpu_support = true ∧ system.gpuUniforms ≠ []
  · simp [GPUEulerBackend.setup_uniforms, hA] at hnone
  · by_cases hB : system.use_builtin_rhs = true
    · cases hreg : BuiltinRHSRegistry.get_rhs system.builtinName with
      | some d =>
        simp [GPUEulerBackend.setup_uniforms, hA, hB, hreg] at hnone
      | none =>
        have hgpu : system.has_gpu_support = true := by
          rcases hgi : system.gpu_info with _ | g
          · simp [ODESystem.use_builtin_rhs, hgi] at hB
          · simp [ODESystem.has_gpu_support, hgi]
        have hkey : GPUEulerBackend.cacheKey system =
            some system.builtinName := by
          simp [GPUEulerBackend.cacheKey, hgpu, hB]
        cases hget : assocGet cache system.builtinName with
        | some handle =>
          have hget' : ∃ a, cache.find? (fun p => p.1 == system.builtinName)
              = some a := by
            unfold assocGet at hget
            rcases hf : cache.find? (fun p => p.1 == system.builtinName)
              with _ | a
            · rw [hf] at hget
              simp at hget
            · exact ⟨a, hf⟩
          obtain ⟨a, hfind⟩ := hget'
          have hmem := List.mem_of_find?_eq_some hfind
          have hpred := List.find?_some hfind
          have hsome := hwf a hmem
          have ha1 : a.1 = system.builtinName := by simpa using hpred
          rw [ha1, hreg] at hsome
          simp at hsome
        | none =>
          have hgen : ShaderGenerator.generate_euler_shader_builtin tmpl
              system.builtinName = none := by
            simp [ShaderGenerator.generate_euler_shader_builtin, hreg]
          have h0 : (GPUEulerBackend.get_or_compile_shader tmpl cr ctx cache
              system).program = 0 := by
            simp [GPUEulerBackend.get_or_compile_shader, hkey, hget, hB, hgen]
          exact hprog h0
    · simp [GPUEulerBackend.setup_uniforms, hA, hB] at hnone

/-- C2 counterexample: with a failing context initialization and the output
parameter holding `[[42]]` at entry, `solve` fails but returns with the output
parameter still `[[42]]`, not the empty trajectory the claim demands
"regardless of the output vector's contents before the call" — the failure
paths return before the `solution.clear()` at gpu_euler_backend.cpp line 145. -/
theorem solve_failure_leaves_stale_output :
    (GPUEulerBackend.solve failCtxEnv freshWorld expSystem 0 1 (1/2) [1]
        [[42]]).completed = false ∧
    (GPUEulerBackend.solve failCtxEnv freshWorld expSystem 0 1 (1/2) [1]
        [[42]]).solution = [[42]] ∧
    ([[(42 : ℚ)]] : List (List ℚ)) ≠ ([] : List (List ℚ)) :=
  ⟨rfl, rfl, by decide⟩

/-- C2 (amended): on every input on which `GPUEulerBackend::solve` fails, it
returns with the output parameter unmodified (so the trajectory is empty
exactly when it was empty before the call), and — for every shader-cache
state the backend itself can produce, i.e. one whose keys name registered
builtins — no exception propagates out of `solve`. -/
theorem solve_failure_output_unmodified :
    ∀ (env : GPUSolveEnv) (w : BackendWorld) (system : ODESystem)
      (t0 tf dt : ℚ) (y0 : List ℚ) (solutionIn : List (List ℚ)),
      wfShaderCache w.cache →
      ((GPUEulerBackend.solve env w system t0 tf dt y0 solutionIn).completed
          = false →
        (GPUEulerBackend.solve env w system t0 tf dt y0 solutionIn).solution
          = solutionIn) ∧
      (GPUEulerBackend.solve env w system t0 tf dt y0 solutionIn).threw
        = false := by
  intro env w system t0 tf dt y0 solutionIn hwf
  cases hok : ( GPUContextManager.initialize env.dev w.ctx).1 with
  | false => constructor <;> simp [GPUEulerBackend.solve, hok]
  | true =>
    cases hgpu : system.has_gpu_support with
    | false => constructor <;> simp [GPUEulerBackend.solve, hok, hgpu]
    | true =>
      by_cases hprog : (GPUEulerBackend.get_or_compile_shader env.tmpl
          env.compileResult ( GPUContextManager.initialize env.dev w.ctx).2.1
          w.cache system).program = 0
      · constructor <;> simp [GPUEulerBackend.solve, hok, hgpu, hprog]
      · cases halloc : (GPUBufferManager.allocate_standard_buffers env.alloc
            w.bufmgr w.gl (y0.length : ℤ) (cppTrunc ((tf - t0) / dt) + 1)
            (y0.map f64tof32)).ok with
        | false =>
          constructor <;>
            simp [GPUEulerBackend.solve, hok, hgpu, hprog, halloc]
        | true =>
          cases hsu : GPUEulerBackend.setup_uniforms system with
          | none =>
            exact absurd hsu
              (setup_some_of_program_nonzero env.tmpl env.compileResult
                ( GPUContextManager.initialize env.dev w.ctx).2.1 w.cache
                system hwf hprog)
          | some uniforms =>
            constructor <;>
              simp [GPUEulerBackend.solve, hok, hgpu, hprog, halloc, hsu]

/-- C2 (amended) witness: the stale-output run of the counterexample
satisfies the amended contract: output unmodified, no exception. -/
theorem solve_failure_output_unmodified_witness :
    (GPUEulerBackend.solve failCtxEnv freshWorld expSystem 0 1 (1/2) [1]
        [[42]]).solution = [[42]] ∧
    (GPUEulerBackend.solve failCtxEnv freshWorld expSystem 0 1 (1/2) [1]
        [[42]]).threw = false :=
  ⟨(solve_failure_output_unmodified failCtxEnv freshWorld expSystem 0 1 (1/2)
      [1] [[42]] (fun p hp => absurd hp (List.not_mem_nil p))).1 rfl,
    (solve_failure_output_unmodified failCtxEnv freshWorld expSystem 0 1 (1/2)
      [1] [[42]] (fun p hp => absurd hp (List.not_mem_nil p))).2⟩

theorem deleteIfNonzero_alive_subset (gl : GLState) (id : ℕ) :
    (GLState.deleteIfNonzero gl id).alive ⊆ gl.alive := by
  unfold GLState.deleteIfNonzero
  show (if id ≠ 0 then gl.alive.filter (fun b => b ≠ id) else gl.alive) ⊆
    gl.alive
  split
  · exact fun x hx => (List.filter_sublist _).subset hx
  · exact fun x hx => hx

theorem cleanup_buffers_alive_subset (mgr : GPUBufferManager) (gl : GLState) :
    (GPUBufferManager.cleanup_buffers mgr gl).2.alive ⊆ gl.alive := by
  unfold GPUBufferManager.cleanup_buffers
  exact List.Subset.trans (deleteIfNonzero_alive_subset _ _)
    (List.Subset.trans (deleteIfNonzero_alive_subset _ _)
      (List.Subset.trans (deleteIfNonzero_alive_subset _ _)
        (deleteIfNonzero_alive_subset _ _)))

theorem mem_deleteIfNonzero {x : ℕ} (gl : GLState) (id : ℕ)
    (hx : x ∈ (GLState.deleteIfNonzero gl id).alive) :
    x ∈ gl.alive ∧ (id ≠ 0 → x ≠ id) := by
  unfold GLState.deleteIfNonzero at hx
  have hx' : x ∈ (if id ≠ 0 then gl.alive.filter (fun b => b ≠ id)
      else gl.alive) := hx
  by_cases h : id ≠ 0
  · rw [if_pos h] at hx'
    simp only [List.mem_filter] at hx'
    refine ⟨hx'.1, fun _ => ?_⟩
    simpa using hx'.2
  · rw [if_neg h] at hx'
    exact ⟨hx', fun hid => absurd hid h⟩

theorem mem_cleanup_buffers {x : ℕ} (mgr : GPUBufferManager) (gl : GLState)
    (hx : x ∈ (GPUBufferManager.cleanup_buffers mgr gl).2.alive) :
    x ∈ gl.alive ∧
      (mgr.buffers.state_buffer ≠ 0 → x ≠ mgr.buffers.state_buffer) ∧
      (mgr.buffers.param_buffer ≠ 0 → x ≠ mgr.buffers.param_buffer) ∧
      (mgr.buffers.timeseries_buffer ≠ 0 → x ≠ mgr.buffers.timeseries_buffer) ∧
      (mgr.buffers.time_control_buffer ≠ 0 →
        x ≠ mgr.buffers.time_control_buffer) := by
  unfold GPUBufferManager.cleanup_buffers at hx
  have h4 := mem_deleteIfNonzero _ _ hx
  have h3 := mem_deleteIfNonzero _ _ h4.1
  have h2 := mem_deleteIfNonzero _ _ h3.1
  have h1 := mem_deleteIfNonzero _ _ h2.1
  exact ⟨h1.1, h1.2, h2.2, h3.2, h4.2⟩



theorem allocate_fail_shape_ts (env : AllocEnv) (mgr : GPUBufferManager)
    (gl : GLState) (n_equations n_timesteps : ℤ) (initial_state : List ℚ)
    (hts : 1 < n_timesteps)
    (hok : (GPUBufferManager.allocate_standard_buffers env mgr gl n_equations
      n_timesteps initial_state).ok = false) :
    ∃ mgr₁ gl₁,
      (GPUBufferManager.allocate_standard_buffers env mgr gl n_equations
        n_timesteps initial_state).mgr =
          (GPUBufferManager.cleanup_buffers mgr₁ gl₁).1 ∧
      (GPUBufferManager.allocate_standard_buffers env mgr gl n_equations
        n_timesteps initial_state).gl =
          (GPUBufferManager.cleanup_buffers mgr₁ gl₁).2 ∧
      mgr₁.buffers.state_buffer ≠ 0 ∧
      mgr₁.buffers.param_buffer ≠ 0 ∧
      mgr₁.buffers.timeseries_buffer ≠ 0 ∧
      mgr₁.buffers.time_control_buffer ≠ 0 ∧
      (∀ x, x ∈ gl₁.alive →
        x = mgr₁.buffers.state_buffer ∨ x = mgr₁.buffers.param_buffer ∨
        x = mgr₁.buffers.timeseries_buffer ∨
        x = mgr₁.buffers.time_control_buffer ∨ x ∈ gl.alive) := by
  by_cases hal : mgr.allocated = true
  · unfold GPUBufferManager.allocate_standard_buffers at hok ⊢
    simp only [GLState.genBuffer, GLState.bufferData, GLState.getError, hal,
      hts, if_true] at hok ⊢
    split at hok
    · rename_i herr
      simp only [herr, if_true]
      refine ⟨_, _, rfl, rfl, by simp, by simp, by simp, by simp, ?_⟩
      intro x hx
      simp only [List.mem_cons] at hx
      rcases hx with rfl | rfl | rfl | rfl | hx
      · exact Or.inr (Or.inr (Or.inr (Or.inl rfl)))
      · exact Or.inr (Or.inr (Or.inl rfl))
      · exact Or.inr (Or.inl rfl)
      · exact Or.inl rfl
      · exact Or.inr (Or.inr (Or.inr (Or.inr
          (cleanup_buffers_alive_subset mgr gl hx))))
    · simp at hok
  · rw [Bool.not_eq_true] at hal
    unfold GPUBufferManager.allocate_standard_buffers at hok ⊢
    simp only [GLState.genBuffer, GLState.bufferData, GLState.getError, hal,
      hts, if_true, if_false, Bool.false_eq_true] at hok ⊢
    split at hok
    · rename_i herr
      simp only [herr, if_true]
      refine ⟨_, _, rfl, rfl, by simp, by simp, by simp, by simp, ?_⟩
      intro x hx
      simp only [List.mem_cons] at hx
      rcases hx with rfl | rfl | rfl | rfl | hx
      · exact Or.inr (Or.inr (Or.inr (Or.inl rfl)))
      · exact Or.inr (Or.inr (Or.inl rfl))
      · exact Or.inr (Or.inl rfl)
      · exact Or.inl rfl
      · exact Or.inr (Or.inr (Or.inr (Or.inr hx)))
    · simp at hok

theorem allocate_fail_shape_nots (env : AllocEnv) (mgr : GPUBufferManager)
    (gl : GLState) (n_equations n_timesteps : ℤ) (initial_state : List ℚ)
    (hts : ¬ 1 < n_timesteps)
    (hok : (GPUBufferManager.allocate_standard_buffers env mgr gl n_equations
      n_timesteps initial_state).ok = false) :
    ∃ mgr₁ gl₁,
      (GPUBufferManager.allocate_standard_buffers env mgr gl n_equations
        n_timesteps initial_state).mgr =
          (GPUBufferManager.cleanup_buffers mgr₁ gl₁).1 ∧
      (GPUBufferManager.allocate_standard_buffers env mgr gl n_equations
        n_timesteps initial_state).gl =
          (GPUBufferManager.cleanup_buffers mgr₁ gl₁).2 ∧
      mgr₁.buffers.state_buffer ≠ 0 ∧
      mgr₁.buffers.param_buffer ≠ 0 ∧
      mgr₁.buffers.time_control_buffer ≠ 0 ∧
      (∀ x, x ∈ gl₁.alive →
        x = mgr₁.buffers.state_buffer ∨ x = mgr₁.buffers.param_buffer ∨
        x = mgr₁.buffers.time_control_buffer ∨ x ∈ gl.alive) := by
  by_cases hal : mgr.allocated = true
  · unfold GPUBufferManager.allocate_standard_buffers at hok ⊢
    simp only [GLState.genBuffer, GLState.bufferData, GLState.getError, hal,
      hts, if_true, if_false] at hok ⊢
    split at hok
    · rename_i herr
      simp only [herr, if_true]
      refine ⟨_, _, rfl, rfl, by simp, by simp, by simp, ?_⟩
      intro x hx
      simp only [List.mem_cons] at hx
      rcases hx with rfl | rfl | rfl | hx
      · exact Or.inr (Or.inr (Or.inl rfl))
      · exact Or.inr (Or.inl rfl)
      · exact Or.inl rfl
      · exact Or.inr (Or.inr (Or.inr
          (cleanup_buffers_alive_subset mgr gl hx)))
    · simp at hok
  · rw [Bool.not_eq_true] at hal
    unfold GPUBufferManager.allocate_standard_buffers at hok ⊢
    simp only [GLState.genBuffer, GLState.bufferData, GLState.getError, hal,
      hts, if_true, if_false, Bool.false_eq_true] at hok ⊢
    split at hok
    · rename_i herr
      simp only [herr, if_true]
      refine ⟨_, _, rfl, rfl, by simp, by simp, by simp, ?_⟩
      intro x hx
      simp only [List.mem_cons] at hx
      rcases hx with rfl | rfl | rfl | hx
      · exact Or.inr (Or.inr (Or.inl rfl))
      · exact Or.inr (Or.inl rfl)
      · exact Or.inl rfl
      · exact Or.inr (Or.inr (Or.inr hx))
    · simp at hok

/-- C8: `allocate_standard_buffers` always creates the STATE, PARAMS and
TIME_CONTROL buffers and creates TIMESERIES exactly when `n_timesteps > 1`;
whenever an underlying allocation records a GL error it reports failure; and
on any failure it releases every buffer allocated during the call — the
manager retains no handles and the set of live GL buffers does not grow. -/
theorem allocate_standard_buffers_rollback :
    ∀ (env : AllocEnv) (mgr : GPUBufferManager) (gl : GLState)
      (n_equations n_timesteps : ℤ) (initial_state : List ℚ),
      ((GPUBufferManager.allocate_standard_buffers env mgr gl n_equations
          n_timesteps initial_state).created =
        [BufKind.state, BufKind.params] ++
          (if 1 < n_timesteps then [BufKind.timeseries] else []) ++
          [BufKind.timeControl]) ∧
      ((env.stateFails = true ∨ env.paramFails = true ∨
          (1 < n_timesteps ∧ env.timeseriesFails = true) ∨
          env.timecontrolFails = true) →
        (GPUBufferManager.allocate_standard_buffers env mgr gl n_equations
          n_timesteps initial_state).ok = false) ∧
      ((GPUBufferManager.allocate_standard_buffers env mgr gl n_equations
          n_timesteps initial_state).ok = false →
        (GPUBufferManager.allocate_standard_buffers env mgr gl n_equations
            n_timesteps initial_state).mgr.buffers.state_buffer = 0 ∧
        (GPUBufferManager.allocate_standard_buffers env mgr gl n_equations
            n_timesteps initial_state).mgr.buffers.param_buffer = 0 ∧
        (GPUBufferManager.allocate_standard_buffers env mgr gl n_equations
            n_timesteps initial_state).mgr.buffers.timeseries_buffer = 0 ∧
        (GPUBufferManager.allocate_standard_buffers env mgr gl n_equations
            n_timesteps initial_state).mgr.buffers.time_control_buffer = 0 ∧
        (GPUBufferManager.allocate_standard_buffers env mgr gl n_equations
          n_timesteps initial_state).gl.alive ⊆ gl.alive) := by
  intro env mgr gl n_equations n_timesteps initial_state
  refine ⟨?_, ?_, ?_⟩
  · by_cases hal : mgr.allocated = true <;> by_cases hts : 1 < n_timesteps <;>
      unfold GPUBufferManager.allocate_standard_buffers <;>
      simp [GLState.genBuffer, GLState.bufferData, GLState.getError, hal,
        hts] <;>
      split <;> simp
  · intro hflag
    by_cases hal : mgr.allocated = true <;> by_cases hts : 1 < n_timesteps <;>
      unfold GPUBufferManager.allocate_standard_buffers <;>
      rcases hflag with hf | hf | ⟨hts2, hf⟩ | hf <;>
      first
        | exact absurd hts2 hts
        | simp [GLState.genBuffer, GLState.bufferData, GLState.getError, hal,
            hts, hf]
  · intro hok
    by_cases hts : 1 < n_timesteps
    · obtain ⟨m1, g1, hm, hg, hs, hp, hts0, htc, hmem⟩ :=
        allocate_fail_shape_ts env mgr gl n_equations n_timesteps
          initial_state hts hok
      refine ⟨by rw [hm]; rfl, by rw [hm]; rfl, by rw [hm]; rfl,
        by rw [hm]; rfl, ?_⟩
      rw [hg]
      intro x hx
      obtain ⟨hx1, hxs, hxp, hxts, hxtc⟩ := mem_cleanup_buffers m1 g1 hx
      rcases hmem x hx1 with h | h | h | h | h
      · exact absurd h (hxs hs)
      · exact absurd h (hxp hp)
      · exact absurd h (hxts hts0)
      · exact absurd h (hxtc htc)
      · exact h
    · obtain ⟨m1, g1, hm, hg, hs, hp, htc, hmem⟩ :=
        allocate_fail_shape_nots env mgr gl n_equations n_timesteps
          initial_state hts hok
      refine ⟨by rw [hm]; rfl, by rw [hm]; rfl, by rw [hm]; rfl,
        by rw [hm]; rfl, ?_⟩
      rw [hg]
      intro x hx
      obtain ⟨hx1, hxs, hxp, hxts, hxtc⟩ := mem_cleanup_buffers m1 g1 hx
      rcases hmem x hx1 with h | h | h | h
      · exact absurd h (hxs hs)
      · exact absurd h (hxp hp)
      · exact absurd h (hxtc htc)
      · exact h

/-- C8 witness: a failing STATE allocation on a fresh manager: the three
mandatory buffers plus TIMESERIES (`n_timesteps = 3 > 1`) are created, the
call reports failure, and everything is rolled back. -/
theorem allocate_standard_buffers_rollback_witness :
    ((GPUBufferManager.allocate_standard_buffers failStateAlloc
        GPUBufferManager.new ⟨0, [], false⟩ 1 3 [1]).created =
      [BufKind.state, BufKind.params] ++
        (if (1 : ℤ) < 3 then [BufKind.timeseries] else []) ++
        [BufKind.timeControl]) ∧
    (GPUBufferManager.allocate_standard_buffers failStateAlloc
      GPUBufferManager.new ⟨0, [], false⟩ 1 3 [1]).ok = false ∧
    ((GPUBufferManager.allocate_standard_buffers failStateAlloc
        GPUBufferManager.new ⟨0, [], false⟩ 1 3 [1]).mgr.buffers.state_buffer
        = 0 ∧
      (GPUBufferManager.allocate_standard_buffers failStateAlloc
        GPUBufferManager.new ⟨0, [], false⟩ 1 3 [1]).mgr.buffers.param_buffer
        = 0 ∧
      (GPUBufferManager.allocate_standard_buffers failStateAlloc
        GPUBufferManager.new ⟨0, [], false⟩ 1 3
          [1]).mgr.buffers.timeseries_buffer = 0 ∧
      (GPUBufferManager.allocate_standard_buffers failStateAlloc
        GPUBufferManager.new ⟨0, [], false⟩ 1 3
          [1]).mgr.buffers.time_control_buffer = 0 ∧
      (GPUBufferManager.allocate_standard_buffers failStateAlloc
        GPUBufferManager.new ⟨0, [], false⟩ 1 3 [1]).gl.alive ⊆
        (⟨0, [], false⟩ : GLState).alive) :=
  ⟨(allocate_standard_buffers_rollback failStateAlloc GPUBufferManager.new
      ⟨0, [], false⟩ 1 3 [1]).1,
    (allocate_standard_buffers_rollback failStateAlloc GPUBufferManager.new
      ⟨0, [], false⟩ 1 3 [1]).2.1 (Or.inl rfl),
    (allocate_standard_buffers_rollback failStateAlloc GPUBufferManager.new
      ⟨0, [], false⟩ 1 3 [1]).2.2 (by decide)⟩
